import Mathlib

/-!
# Paper data visualization frontend: views, adapter, timeline and graph renderer

A shallow embedding of the response handling, filter state and colour scheme of
`CitationNetwork.jsx` and `CollaborationNetwork.jsx`, of `Dashboard.jsx`, of the selection
handlers of `Timeline.jsx`, of the render effect of `NetworkGraph.jsx` and of the adapter
`services/api.js`.

* JavaScript values that reach the code (parsed JSON bodies, filter numbers) are terms of
  `JVal`.  Numbers are integers or `NaN`; the string form of an integer is its decimal numeral.
* A JavaScript function that may throw returns `Except Thrown _`.
* React state is an explicit record; `fetchData` maps the state before the call and the
  outcome of the HTTP request to the state after the last `setState` of the call.
* `console.*` calls have no effect on the state and are left out.
* What React and d3 do is modelled as far as the code relies on it: an effect runs after a
  render in which a dependency is a different object; `selection.data(..).join(..)` binds
  data to elements by position; `d3.forceLink` resolves link endpoints against the node ids
  and throws for an id that names no node.  A request is taken to complete at once.
-/

namespace PaperViz

/-! ## JavaScript values -/

/-- A JavaScript value as the views see it: what `JSON.parse` produces, plus `undefined`
(an absent property) and `NaN` (a filter input that did not parse). -/
inductive JVal where
  | undefined
  | null
  | bool (b : Bool)
  | num (n : Int)
  | nan
  | str (s : String)
  | arr (xs : List JVal)
  | obj (fields : List (String × JVal))

/-- A JavaScript number as the filter inputs produce it: `parseInt` gives an integer or `NaN`. -/
inductive JNum where
  | int (n : Int)
  | nan
  deriving DecidableEq

/-- The number as a general value. -/
def JNum.toJVal : JNum → JVal
  | .int n => .num n
  | .nan => .nan

/-- String form of a number, as a template literal prints it. -/
def JNum.toStr : JNum → String
  | .int n => toString n
  | .nan => "NaN"

/-- The comparison `x > 0` on numbers; every comparison with `NaN` is false. -/
def JNum.gtZero : JNum → Bool
  | .int n => decide (0 < n)
  | .nan => false

/-- The body and status code of an HTTP response, as axios hands them over. -/
structure AxiosResponse where
  data : JVal
  status : Int

/-- An axios failure: `response` is set when the server answered with an error status,
`request` is truthy when a request was sent, `message` is axios's own text. -/
structure AxiosError where
  response : Option AxiosResponse
  request : Bool
  message : String

/-- What a `throw` carries. -/
inductive Thrown where
  /-- The value of `new Error(message)`. -/
  | error (message : String)
  /-- A `TypeError` raised by the engine; the text follows V8's wording. -/
  | typeError (message : String)
  /-- An axios failure passed on as it is. -/
  | axios (e : AxiosError)

/-- The property `err.message` of a caught value. -/
def Thrown.message : Thrown → String
  | .error m => m
  | .typeError m => m
  | .axios e => e.message

/-- The expression `s || fallback` on strings: the empty string is falsy. -/
def orElse (s fallback : String) : String :=
  if s = "" then fallback else s

namespace JVal

/-- Truthiness (`ToBoolean`). -/
def truthy : JVal → Bool
  | .undefined => false
  | .null => false
  | .bool b => b
  | .num n => n != 0
  | .nan => false
  | .str s => s != ""
  | .arr _ => true
  | .obj _ => true

/-- The test `Array.isArray(v)`. -/
def isArray : JVal → Bool
  | .arr _ => true
  | _ => false

/-- Value of the own property `k` in a property list, `undefined` when absent. -/
def lookup (k : String) : List (String × JVal) → JVal
  | [] => .undefined
  | (k', v) :: fs => if k' = k then v else lookup k fs

/-- Whether the property list has an own property `k`. -/
def hasOwn (k : String) : List (String × JVal) → Bool
  | [] => false
  | (k', _) :: fs => k' == k || hasOwn k fs

/-- The expression `v.k` for a receiver that is not `null` or `undefined`.  The property names
the program reads (`nodes`, `edges`, `stats`, `id`, `source`, `target`, `author1`, `author2`,
`weight`, `error`) are defined on no prototype, so only an object's own property gives a
value. -/
def ownProp (v : JVal) (k : String) : JVal :=
  match v with
  | .obj fs => lookup k fs
  | _ => .undefined

/-- The expression `v.k`: reading a property of `null` or `undefined` throws. -/
def getProp (v : JVal) (k : String) : Except Thrown JVal :=
  match v with
  | .undefined =>
    .error (.typeError ("Cannot read properties of undefined (reading '" ++ k ++ "')"))
  | .null => .error (.typeError ("Cannot read properties of null (reading '" ++ k ++ "')"))
  | v => .ok (ownProp v k)

/-- The property list after the assignment `k: v` of an object literal: an existing key keeps
its place and takes the new value, a new key is added at the end. -/
def setField (k : String) (v : JVal) : List (String × JVal) → List (String × JVal)
  | [] => [(k, v)]
  | (k', v') :: fs => if k' = k then (k, v) :: fs else (k', v') :: setField k v fs

/-- The properties copied by the spread `...v` of an object literal.  For a string or an array
the spread copies index properties; the program never sees them, since it spreads `node` and
next reads `node.id.toString()`, which throws for every `node` that is not an object. -/
def spreadProps : JVal → List (String × JVal)
  | .obj fs => fs
  | _ => []

/-- The elements of a value that passed `Array.isArray`. -/
def elems : JVal → List JVal
  | .arr xs => xs
  | _ => []

/-- One step of `Array.prototype.join` with separator `,`: `x` is the first element and `sx`
its `ToString`, `rest` the remaining elements and `srest` their joined text.  An element that
is `null` or `undefined` gives the empty string; the separator is put between elements. -/
def joinStep (x : JVal) (sx : Except Thrown String) (rest : List JVal)
    (srest : Except Thrown String) : Except Thrown String :=
  let piece : Except Thrown String :=
    match x with
    | .undefined => .ok ""
    | .null => .ok ""
    | _ => sx
  match piece with
  | .error e => .error e
  | .ok a =>
    match rest with
    | [] => .ok a
    | _ :: _ =>
      match srest with
      | .error e => .error e
      | .ok b => .ok (a ++ "," ++ b)

mutual
/-- The abstract operation `ToString`: template literals, `Array.prototype.join` and
`new Error(v)` use it.  A parsed object has no callable own `toString`; when it has an own
property of that name the conversion to a primitive fails. -/
def toStr : JVal → Except Thrown String
  | .undefined => .ok "undefined"
  | .null => .ok "null"
  | .bool b => .ok (if b then "true" else "false")
  | .num n => .ok (toString n)
  | .nan => .ok "NaN"
  | .str s => .ok s
  | .arr xs => joinStr xs
  | .obj fs =>
    if hasOwn "toString" fs then .error (.typeError "Cannot convert object to primitive value")
    else .ok "[object Object]"
/-- The call `xs.join(",")`, which is what `xs.toString()` returns. -/
def joinStr : List JVal → Except Thrown String
  | [] => .ok ""
  | x :: rest => joinStep x (toStr x) rest (joinStr rest)
end

/-- The method call `v.toString()`, where `expr` is the source text of the receiver. -/
def callToString (v : JVal) (expr : String) : Except Thrown String :=
  match v with
  | .undefined =>
    .error (.typeError "Cannot read properties of undefined (reading 'toString')")
  | .null => .error (.typeError "Cannot read properties of null (reading 'toString')")
  | .obj fs =>
    if hasOwn "toString" fs then .error (.typeError (expr ++ ".toString is not a function"))
    else .ok "[object Object]"
  | v => toStr v

/-- The comparison `SameValueZero` a `Set` uses.  Arrays and objects are compared by reference;
the program only ever compares strings, so no two of them are taken as the same. -/
def sameValueZero : JVal → JVal → Bool
  | .undefined, .undefined => true
  | .null, .null => true
  | .bool a, .bool b => a == b
  | .num a, .num b => a == b
  | .nan, .nan => true
  | .str a, .str b => a == b
  | _, _ => false

/-- The call `set.has(v)` for the set built from the list `set`. -/
def setHas (set : List JVal) (v : JVal) : Bool :=
  set.any (fun x => sameValueZero x v)

end JVal

/-- The call `xs.map(f)` with a callback that may throw: elements are visited in order and the
first exception ends the call. -/
def arrayMap {α β : Type} (f : α → Except Thrown β) : List α → Except Thrown (List β)
  | [] => .ok []
  | x :: xs =>
    match f x with
    | .error e => .error e
    | .ok y =>
      match arrayMap f xs with
      | .error e => .error e
      | .ok ys => .ok (y :: ys)

/-! ## HTTP adapter (`services/api.js`) -/

/-- A `GET` request of the adapter: path below the base URL and query parameters. -/
structure Request where
  url : String
  params : List (String × JVal)

/-- The call `api.get(url, { params })` seen from the program: it resolves with a response or
rejects with an axios failure. -/
abbrev Transport := Request → Except AxiosError AxiosResponse

namespace apiService

/-- The `catch` block shared, word for word, by `getCitationNetwork` and
`getCollaborationNetwork`: it always throws. -/
def rethrow (error : AxiosError) : Thrown :=
  match error.response with
  | some response =>
    -- `new Error(error.response.data.error || ...)`
    match JVal.getProp response.data "error" with
    | .error e => e
    | .ok text =>
      if text.truthy then
        match text.toStr with
        | .error e => e
        | .ok message => .error message
      else .error ("Server error: " ++ toString response.status)
  | none =>
    if error.request then .error "Cannot connect to server. Is the backend running?"
    else .error (orElse error.message "Unknown error occurred")

/-- The query parameters both network operations build: `limit` when it is truthy, the
minimum under the name `minName` when it is greater than 0.  The parameter defaults
(`limit = null`, minimum `0`) replace an argument that is `undefined`; `null` and
`undefined` are both falsy, and the views pass both arguments, so the defaults are not
modelled apart. -/
def networkParams (minName : String) (limit : JVal) (minimum : JNum) : List (String × JVal) :=
  (if limit.truthy then [("limit", limit)] else []) ++
    (if minimum.gtZero then [(minName, minimum.toJVal)] else [])

/-- The operation `healthCheck`. -/
def healthCheck (get : Transport) : Except Thrown JVal :=
  match get ⟨"/api/health", []⟩ with
  | .ok response => .ok response.data
  | .error error => .error (.axios error)

/-- The operation `getCitationNetwork(limit, minCitations)`. -/
def getCitationNetwork (get : Transport) (limit : JVal) (minCitations : JNum) :
    Except Thrown JVal :=
  match get ⟨"/api/networks/citation", networkParams "min_citations" limit minCitations⟩ with
  | .ok response => .ok response.data
  | .error error => .error (rethrow error)

/-- The operation `getCollaborationNetwork(limit, minCollaborations)`. -/
def getCollaborationNetwork (get : Transport) (limit : JVal) (minCollaborations : JNum) :
    Except Thrown JVal :=
  match get ⟨"/api/networks/collaboration",
      networkParams "min_collaborations" limit minCollaborations⟩ with
  | .ok response => .ok response.data
  | .error error => .error (rethrow error)

/-- The operation `getTimeline`. -/
def getTimeline (get : Transport) : Except Thrown JVal :=
  match get ⟨"/api/timeline", []⟩ with
  | .ok response => .ok response.data
  | .error error => .error (.axios error)

/-- The operation `getStats`. -/
def getStats (get : Transport) : Except Thrown JVal :=
  match get ⟨"/api/stats", []⟩ with
  | .ok response => .ok response.data
  | .error error => .error (.axios error)

/-- The operation `getPaperDetails(paperId)`; `paperId` is the text the template literal
puts into the path. -/
def getPaperDetails (get : Transport) (paperId : String) : Except Thrown JVal :=
  match get ⟨"/api/paper/" ++ paperId, []⟩ with
  | .ok response => .ok response.data
  | .error error => .error (.axios error)

end apiService

/-! ## Network views (`CitationNetwork.jsx`, `CollaborationNetwork.jsx`) -/

/-- The `data` state of a network view.  The initial value has `nodes` and `edges`; `setData`
stores `nodes`, `links` and `stats`. -/
structure GraphData where
  nodes : JVal
  edges : JVal
  links : JVal
  stats : JVal

/-- The React state of a network view; `error = none` stands for `null`. -/
structure ViewState where
  data : GraphData
  loading : Bool
  error : Option String

/-- The state a network view is mounted with. -/
def ViewState.initial : ViewState :=
  { data := { nodes := .arr [], edges := .arr [], links := .undefined, stats := .undefined },
    loading := true, error := none }

/-- What a view returns from its render function. -/
inductive Panel where
  /-- The "Loading ..." panel. -/
  | loading
  /-- The error panel: the message and a Retry button. -/
  | error (message : String)
  /-- The normal content; for a network view the graph renderer gets `nodes` and `links`. -/
  | content
  deriving DecidableEq

/-- The render function of both network views: `if (loading) ...; if (error) ...; ...`. -/
def ViewState.render (s : ViewState) : Panel :=
  if s.loading then .loading
  else
    match s.error with
    | some message => if message = "" then .content else .error message
    | none => .content

/-- The callback `node => ({ ...node, id: node.id.toString() })` of both views. -/
def normalizeNode (node : JVal) : Except Thrown JVal :=
  match JVal.getProp node "id" with
  | .error e => .error e
  | .ok id =>
    match id.callToString "node.id" with
    | .error e => .error e
    | .ok s => .ok (.obj (JVal.setField "id" (.str s) node.spreadProps))

/-- The filter callback of both views:
`validNodeIds.has(edge.source) && validNodeIds.has(edge.target)`. -/
def isValid (validNodeIds : List JVal) (edge : JVal) : Bool :=
  JVal.setHas validNodeIds (edge.ownProp "source") &&
    JVal.setHas validNodeIds (edge.ownProp "target")

namespace CitationNetwork

/-- The `filters` state of the citation view. -/
structure Filters where
  limit : JNum
  minCitations : JNum

/-- The filters the citation view is mounted with. -/
def Filters.initial : Filters := { limit := .int 100, minCitations := .int 0 }

/-- The callback `edge => ({ source: edge.source.toString(), target: edge.target.toString() })`. -/
def toLink (edge : JVal) : Except Thrown JVal :=
  match JVal.getProp edge "source" with
  | .error e => .error e
  | .ok source =>
    match source.callToString "edge.source" with
    | .error e => .error e
    | .ok s =>
      match JVal.getProp edge "target" with
      | .error e => .error e
      | .ok target =>
        match target.callToString "edge.target" with
        | .error e => .error e
        | .ok t => .ok (.obj [("source", .str s), ("target", .str t)])

/-- The `try` block of `fetchData` below the `await`: validation and reshaping of the
response, ending in the argument of `setData`. -/
def loadData (filters : Filters) (response : JVal) : Except Thrown GraphData := do
  if !response.truthy then
    throw (.error "No response from server")
  let rnodes ← response.getProp "nodes"
  if !rnodes.truthy || !rnodes.isArray then
    throw (.error "Invalid response format: nodes missing or not an array")
  let redges ← response.getProp "edges"
  if !redges.truthy || !redges.isArray then
    throw (.error "Invalid response format: edges missing or not an array")
  if rnodes.elems.length == 0 then
    throw (.error ("No papers found with these filters (limit: " ++ filters.limit.toStr ++
      ", min citations: " ++ filters.minCitations.toStr ++ ")"))
  let nodes ← arrayMap normalizeNode rnodes.elems
  let validNodeIds := nodes.map (fun n => n.ownProp "id")
  let mapped ← arrayMap toLink redges.elems
  let links := mapped.filter (isValid validNodeIds)
  let stats ← response.getProp "stats"
  pure { nodes := .arr nodes, edges := .undefined, links := .arr links, stats := stats }

/-- The function `fetchData` of the citation view: the state after the call, given the
state before it and the transport the adapter uses. -/
def fetchData (get : Transport) (filters : Filters) (s : ViewState) : ViewState :=
  let s := { s with loading := true, error := none }
  match apiService.getCitationNetwork get filters.limit.toJVal filters.minCitations >>=
      loadData filters with
  | .ok data => { s with data := data, loading := false }
  | .error err =>
    { s with error := some (orElse err.message "Failed to load citation network"),
             loading := false }

end CitationNetwork

namespace CollaborationNetwork

/-- The `filters` state of the collaboration view. -/
structure Filters where
  limit : JNum
  minCollaborations : JNum

/-- The filters the collaboration view is mounted with. -/
def Filters.initial : Filters := { limit := .int 50, minCollaborations := .int 1 }

/-- The callback `edge => ({ source: edge.author1.toString(),
target: edge.author2.toString(), weight: edge.weight })`. -/
def toLink (edge : JVal) : Except Thrown JVal :=
  match JVal.getProp edge "author1" with
  | .error e => .error e
  | .ok author1 =>
    match author1.callToString "edge.author1" with
    | .error e => .error e
    | .ok s =>
      match JVal.getProp edge "author2" with
      | .error e => .error e
      | .ok author2 =>
        match author2.callToString "edge.author2" with
        | .error e => .error e
        | .ok t =>
          .ok (.obj [("source", .str s), ("target", .str t), ("weight", edge.ownProp "weight")])

/-- The `try` block of `fetchData` below the `await`: validation and reshaping of the
response, ending in the argument of `setData`. -/
def loadData (filters : Filters) (response : JVal) : Except Thrown GraphData := do
  if !response.truthy then
    throw (.error "No response from server")
  let rnodes ← response.getProp "nodes"
  if !rnodes.truthy || !rnodes.isArray then
    throw (.error "Invalid response format: nodes missing or not an array")
  let redges ← response.getProp "edges"
  if !redges.truthy || !redges.isArray then
    throw (.error "Invalid response format: edges missing or not an array")
  if rnodes.elems.length == 0 then
    throw (.error ("No authors found with these filters (limit: " ++ filters.limit.toStr ++
      ", min collaborations: " ++ filters.minCollaborations.toStr ++ ")"))
  let nodes ← arrayMap normalizeNode rnodes.elems
  let validNodeIds := nodes.map (fun n => n.ownProp "id")
  let mapped ← arrayMap toLink redges.elems
  let links := mapped.filter (isValid validNodeIds)
  let stats ← response.getProp "stats"
  pure { nodes := .arr nodes, edges := .undefined, links := .arr links, stats := stats }

/-- The function `fetchData` of the collaboration view: the state after the call, given the
state before it and the transport the adapter uses. -/
def fetchData (get : Transport) (filters : Filters) (s : ViewState) : ViewState :=
  let s := { s with loading := true, error := none }
  match apiService.getCollaborationNetwork get filters.limit.toJVal filters.minCollaborations >>=
      loadData filters with
  | .ok data => { s with data := data, loading := false }
  | .error err =>
    { s with error := some (orElse err.message "Failed to load collaboration network"),
             loading := false }

end CollaborationNetwork

/-! ## Dashboard view (`Dashboard.jsx`) -/

namespace Dashboard

/-- The React state of the dashboard; `error = none` stands for `null`. -/
structure State where
  stats : JVal
  loading : Bool
  error : Option String
  selectedYear : JVal

/-- The state the dashboard is mounted with. -/
def State.initial : State :=
  { stats := .null, loading := true, error := none, selectedYear := .null }

/-- The render function of the dashboard: `if (loading) ...; if (error) ...; ...`. -/
def State.render (s : State) : Panel :=
  if s.loading then .loading
  else
    match s.error with
    | some message => if message = "" then .content else .error message
    | none => .content

end Dashboard

/-! ## Common shape of the two `loadData` functions -/

/-- The steps shared by the two `loadData` functions, with the "no results" message and the
edge callback as parameters.  Lemmas about both views are stated once, on this function. -/
def loadCore (emptyMessage : String) (toLink : JVal → Except Thrown JVal) (response : JVal) :
    Except Thrown GraphData :=
  if response.truthy = false then .error (.error "No response from server")
  else if (response.ownProp "nodes").isArray = false then
    .error (.error "Invalid response format: nodes missing or not an array")
  else if (response.ownProp "edges").isArray = false then
    .error (.error "Invalid response format: edges missing or not an array")
  else if ((response.ownProp "nodes").elems.length == 0) = true then .error (.error emptyMessage)
  else
    match arrayMap normalizeNode (response.ownProp "nodes").elems with
    | .error e => .error e
    | .ok nodes =>
      match arrayMap toLink (response.ownProp "edges").elems with
      | .error e => .error e
      | .ok mapped =>
        .ok { nodes := .arr nodes, edges := .undefined,
              links := .arr (mapped.filter (isValid (nodes.map (fun n => n.ownProp "id")))),
              stats := response.ownProp "stats" }

/-- The "no results" message of the citation view. -/
def CitationNetwork.emptyMessage (filters : CitationNetwork.Filters) : String :=
  "No papers found with these filters (limit: " ++ filters.limit.toStr ++
    ", min citations: " ++ filters.minCitations.toStr ++ ")"

/-- The "no results" message of the collaboration view. -/
def CollaborationNetwork.emptyMessage (filters : CollaborationNetwork.Filters) : String :=
  "No authors found with these filters (limit: " ++ filters.limit.toStr ++
    ", min collaborations: " ++ filters.minCollaborations.toStr ++ ")"

/-! ## Sample inputs -/

/-- A transport that answers every request with status 200 and the body `body`. -/
def respondWith (body : JVal) : Transport :=
  fun _ => .ok { data := body, status := 200 }

/-- A transport on which every request fails with `failure`. -/
def failWith (failure : AxiosError) : Transport :=
  fun _ => .error failure

/-- A citation response with a numeric and a string id, one edge between them and one edge to
a paper that is not among the nodes. -/
def sampleCitationBody : JVal :=
  .obj [("nodes", .arr [.obj [("id", .num 1), ("year", .num 2021)], .obj [("id", .str "2")]]),
        ("edges", .arr [.obj [("source", .num 1), ("target", .num 2)],
                        .obj [("source", .num 1), ("target", .num 3)]])]

/-- A collaboration response: authors `a` and `b` and one edge of weight 3 between them. -/
def sampleCollaborationBody : JVal :=
  .obj [("nodes", .arr [.obj [("id", .str "a")], .obj [("id", .str "b")]]),
        ("edges", .arr [.obj [("author1", .str "a"), ("author2", .str "b"),
                              ("weight", .num 3)]])]

/-- A response whose only edge record has no `source` field; its node has an identifier. -/
def edgeWithoutSourceBody : JVal :=
  .obj [("nodes", .arr [.obj [("id", .str "a")]]),
        ("edges", .arr [.obj [("target", .str "a")]])]

/-- A response with an empty node array and no `edges` field. -/
def emptyNodesOnlyBody : JVal :=
  .obj [("nodes", .arr [])]

/-- A response with an empty node array and an empty edge array. -/
def emptyGraphBody : JVal :=
  .obj [("nodes", .arr []), ("edges", .arr [])]

/-- A truthy response without an `edges` field. -/
def nodesOnlyBody : JVal :=
  .obj [("nodes", .arr [.obj [("id", .str "a")]])]

/-! ## Shapes of records and of messages -/

/-- Whether `v.toString()` returns: `v` is neither `null` nor `undefined` and converts to a
string. -/
def JVal.hasStringForm (v : JVal) : Bool :=
  match v.callToString "" with
  | .ok _ => true
  | .error _ => false

/-- A node with an identifier: a record whose `id` has a string form. -/
def hasIdentifier (node : JVal) : Bool :=
  match node.getProp "id" with
  | .ok id => id.hasStringForm
  | .error _ => false

/-- An edge record with both endpoint fields, named `k1` and `k2`, each with a string form. -/
def hasEndpoints (k1 k2 : String) (edge : JVal) : Bool :=
  match edge.getProp k1, edge.getProp k2 with
  | .ok a, .ok b => a.hasStringForm && b.hasStringForm
  | _, _ => false

/-- The test `s.startsWith(pre)`. -/
def startsWith (pre s : String) : Bool :=
  List.isPrefixOf pre.data s.data

/-- An exception with a non-empty text that does not start with "Invalid response format". -/
def Thrown.otherError (e : Thrown) : Prop :=
  e.message ≠ "" ∧ startsWith "Invalid response format" e.message = false

/-! ## Links as the specification describes them -/

/-- The link of a collaboration edge record in the words of the specification: source and
target are the string forms of `author1` and `author2`, the weight is the record's own; the
record gives a link exactly when both string forms are among the node identifiers `ids`. -/
def CollaborationNetwork.specLink (ids : List JVal) (edge : JVal) : Option JVal :=
  match (edge.ownProp "author1").callToString "edge.author1",
      (edge.ownProp "author2").callToString "edge.author2" with
  | .ok s, .ok t =>
    if JVal.setHas ids (.str s) && JVal.setHas ids (.str t) then
      some (.obj [("source", .str s), ("target", .str t), ("weight", edge.ownProp "weight")])
    else none
  | _, _ => none

/-! ## Identifiers in string form -/

/-- A citation response in which the node ids are the string "7" and the number 8 while the
edge names them as the number 7 and the string "8". -/
def mixedIdsCitationBody : JVal :=
  .obj [("nodes", .arr [.obj [("id", .str "7")], .obj [("id", .num 8)]]),
        ("edges", .arr [.obj [("source", .num 7), ("target", .str "8")]])]

/-- The collaboration response with the same mix of numbers and strings. -/
def mixedIdsCollaborationBody : JVal :=
  .obj [("nodes", .arr [.obj [("id", .str "7")], .obj [("id", .num 8)]]),
        ("edges", .arr [.obj [("author1", .num 7), ("author2", .str "8"),
                              ("weight", .num 2)]])]

/-- The server answers with status 500 and the JSON body `null`. -/
def nullPayloadFailure : AxiosError :=
  { response := some { data := .null, status := 500 }, request := true,
    message := "Request failed with status code 500" }

/-- The request was sent and no response came back. -/
def networkFailure : AxiosError :=
  { response := none, request := true, message := "Network Error" }

/-- The normalized form of a citation edge record in the words of the specification: the
record with both endpoints replaced by their string forms; `none` for a record that lacks an
endpoint with a string form. -/
def CitationNetwork.normalizedEdge (edge : JVal) : Option JVal :=
  match (edge.ownProp "source").callToString "edge.source",
      (edge.ownProp "target").callToString "edge.target" with
  | .ok s, .ok t => some (.obj [("source", .str s), ("target", .str t)])
  | _, _ => none

/-- The normalized form of a collaboration edge record: endpoints are the string forms of
`author1` and `author2`, the weight is carried along. -/
def CollaborationNetwork.normalizedEdge (edge : JVal) : Option JVal :=
  match (edge.ownProp "author1").callToString "edge.author1",
      (edge.ownProp "author2").callToString "edge.author2" with
  | .ok s, .ok t =>
    some (.obj [("source", .str s), ("target", .str t), ("weight", edge.ownProp "weight")])
  | _, _ => none

/-- Whether the text `s` is one of the identifiers `ids`. -/
def isIdentifier (ids : List JVal) (s : String) : Bool :=
  ids.any (fun x =>
    match x with
    | .str t => t == s
    | _ => false)

/-- Whether both endpoints of a normalized edge are node identifiers. -/
def endpointsKnown (ids : List JVal) (link : JVal) : Bool :=
  match link.ownProp "source", link.ownProp "target" with
  | .str a, .str b => isIdentifier ids a && isIdentifier ids b
  | _, _ => false

/-- A citation response with a repeated edge, an edge to an unknown paper and an edge back. -/
def repeatedEdgesBody : JVal :=
  .obj [("nodes", .arr [.obj [("id", .str "p")], .obj [("id", .str "q")]]),
        ("edges", .arr [.obj [("source", .str "p"), ("target", .str "q")],
                        .obj [("source", .str "p"), ("target", .str "x")],
                        .obj [("source", .str "p"), ("target", .str "q")],
                        .obj [("source", .str "q"), ("target", .str "p")]])]

/-! ## Numbers from text and from values -/

/-- Whether `c` is white space in the sense of `StrWhiteSpaceChar`. -/
def isWhiteSpace (c : Char) : Bool :=
  let n := c.toNat
  n == 9 || n == 10 || n == 11 || n == 12 || n == 13 || n == 32 || n == 160 ||
    n == 0x1680 || (0x2000 ≤ n && n ≤ 0x200A) || n == 0x2028 || n == 0x2029 ||
    n == 0x202F || n == 0x205F || n == 0x3000 || n == 0xFEFF

/-- The value of `c` as a digit in the given radix, if it is one. -/
def digitValue (radix : Nat) (c : Char) : Option Nat :=
  let n := c.toNat
  let v : Option Nat :=
    if 48 ≤ n && n ≤ 57 then some (n - 48)
    else if 97 ≤ n && n ≤ 122 then some (n - 87)
    else if 65 ≤ n && n ≤ 90 then some (n - 55)
    else none
  match v with
  | some d => if d < radix then some d else none
  | none => none

/-- The digit values of the longest prefix of `cs` made of digits of the radix. -/
def takeDigits (radix : Nat) : List Char → List Nat
  | [] => []
  | c :: rest =>
    match digitValue radix c with
    | some d => d :: takeDigits radix rest
    | none => []

/-- The number written by a list of digit values. -/
def digitsValue (radix : Nat) (ds : List Nat) : Nat :=
  ds.foldl (fun acc d => acc * radix + d) 0

/-- The number a text denotes under `ToNumber`, for the texts of the integer model: the empty
or blank text is 0, a decimal integer numeral with an optional sign is its value.  Every
other text (fractions, exponents, `0x` forms, `Infinity`, non-numerals) reads as `NaN` here;
of these only the non-numerals are `NaN` in JavaScript, the others denote numbers the model
does not have. -/
def textToNumber (s : String) : JNum :=
  let cs := ((s.data.dropWhile isWhiteSpace).reverse.dropWhile isWhiteSpace).reverse
  match cs with
  | [] => .int 0
  | c :: rest =>
    let negative := c == '-'
    let body := if c == '-' || c == '+' then rest else c :: rest
    let ds := takeDigits 10 body
    if ds.isEmpty || ds.length != body.length then .nan
    else if negative then .int (-(digitsValue 10 ds : Int))
    else .int (digitsValue 10 ds)

/-- The abstract operation `ToNumber` on the values of the model.  It is exact on `undefined`,
`null`, booleans and numbers, and on text as `textToNumber` says.  An array or object is
converted through its string form in JavaScript; parsed bodies carry numbers, text or `null`
where the program compares or takes roots, and the model reads every array and object as
`NaN`. -/
def JVal.toNumber : JVal → JNum
  | .undefined => .nan
  | .null => .int 0
  | .bool b => .int (if b then 1 else 0)
  | .num n => .int n
  | .nan => .nan
  | .str s => textToNumber s
  | .arr _ => .nan
  | .obj _ => .nan

/-- The comparison `v >= k` for an integer literal `k`: false when `v` is not a number. -/
def JVal.geInt (v : JVal) (k : Int) : Bool :=
  match v.toNumber with
  | .int n => decide (k ≤ n)
  | .nan => false

/-! ## Citation view: colours and legend -/

/-- The function `getNodeColor` of the citation view; the renderer calls it with a node
object. -/
def CitationNetwork.getNodeColor (node : JVal) : String :=
  let year := node.ownProp "year"
  if year.geInt 2024 then "#e74c3c"
  else if year.geInt 2023 then "#f39c12"
  else if year.geInt 2022 then "#f1c40f"
  else if year.geInt 2021 then "#2ecc71"
  else "#3498db"

/-- The legend the citation view displays below the graph: colour and year label of each
entry, from top to bottom. -/
def CitationNetwork.legend : List (String × Int) :=
  [("#e74c3c", 2024), ("#f39c12", 2023), ("#f1c40f", 2022), ("#2ecc71", 2021),
   ("#3498db", 2020)]

/-- The year the legend shows for a colour; 0 for a colour that is not in the legend. -/
def CitationNetwork.legendYear (colour : String) : Int :=
  match CitationNetwork.legend.find? (fun entry => entry.1 == colour) with
  | some entry => entry.2
  | none => 0

/-! ## Dashboard: year selection -/

/-- The function `handleYearSelect`, which the dashboard hands to the timeline as its
selection callback. -/
def Dashboard.handleYearSelect (year : JVal) (s : Dashboard.State) : Dashboard.State :=
  { s with selectedYear := year }

/-- The function `getFilteredStats`.  `stats.papers` is read only when `stats` is truthy, so
the read does not throw. -/
def Dashboard.getFilteredStats (s : Dashboard.State) : JVal :=
  if !s.stats.truthy || !(s.stats.ownProp "papers").truthy || !s.selectedYear.truthy then
    s.stats
  else
    s.stats

/-! ## Timeline (`Timeline.jsx`) -/

namespace Timeline

/-- The React state of the timeline; `error = none` stands for `null`. -/
structure State where
  data : JVal
  loading : Bool
  error : Option String
  selectedYear : JVal

/-- The state the timeline is mounted with. -/
def State.initial : State :=
  { data := .null, loading := true, error := none, selectedYear := .null }

/-- The function `fetchData` of the timeline: the state after the call. -/
def fetchData (get : Transport) (s : State) : State :=
  let s := { s with loading := true, error := none }
  match apiService.getTimeline get with
  | .ok response => { s with data := response, loading := false }
  | .error err => { s with error := some err.message, loading := false }

/-- The render function of the timeline: the loading text, the error text, or the content
with the `<svg>` of the chart. -/
def State.render (s : State) : Panel :=
  if s.loading then .loading
  else
    match s.error with
    | some message => if message = "" then .content else .error message
    | none => .content

/-- The data bound to the bars once the drawing effect has run in state `s`.  The `<svg>`
exists only in the content panel, so `svgRef.current` is unset in the other panels and the
effect returns early, as it does for missing data.  Otherwise the effect reads `d.year` for
the band scale and `d.count` for the linear scale of every element before it binds the
elements to the bars. -/
def bars (s : State) : Except Thrown (List JVal) :=
  if !s.data.truthy || !(s.data.ownProp "timeline").truthy || s.render != .content then
    .ok []
  else
    match s.data.ownProp "timeline" with
    | .arr series =>
      match arrayMap (fun d => JVal.getProp d "year") series with
      | .error e => .error e
      | .ok _ =>
        match arrayMap (fun d => JVal.getProp d "count") series with
        | .error e => .error e
        | .ok _ => .ok series
    | _ => .error (.typeError "timeline.map is not a function")

/-- The timeline together with the record of the calls of its selection callback: `selected`
lists the argument of each call of `onYearSelect`, oldest first. -/
structure Run where
  state : State
  selected : List JVal

/-- The click handler of the bar bound to `d`; `onYearSelect` tells whether the callback
property was supplied. -/
def clickBar (onYearSelect : Bool) (d : JVal) (r : Run) : Except Thrown Run :=
  match d.getProp "year" with
  | .error e => .error e
  | .ok year =>
    .ok { state := { r.state with selectedYear := year },
          selected := if onYearSelect then r.selected ++ [year] else r.selected }

/-- Whether the "Clear Selection" button is rendered: it is part of the content panel and
shown for a truthy selected year. -/
def clearShown (s : State) : Bool :=
  s.render == .content && s.selectedYear.truthy

/-- The click handler of the "Clear Selection" button. -/
def clickClear (onYearSelect : Bool) (r : Run) : Run :=
  { state := { r.state with selectedYear := .null },
    selected := if onYearSelect then r.selected ++ [.null] else r.selected }

end Timeline

/-- The timeline response of the specification's example: 5 papers in 2020, 12 in 2021. -/
def sampleTimelineBody : JVal :=
  .obj [("timeline", .arr [.obj [("year", .num 2020), ("count", .num 5)],
                           .obj [("year", .num 2021), ("count", .num 12)]])]

/-- The timeline of the example after its fetch, with no callback call recorded yet. -/
def sampleTimelineRun : Timeline.Run :=
  { state := Timeline.fetchData (respondWith sampleTimelineBody) Timeline.State.initial,
    selected := [] }

/-! ## Filter state and the fetch effect of the network views -/

/-- The arguments of one call of a network operation of the adapter. -/
structure AdapterCall where
  operation : String
  limit : JVal
  minimum : JNum

/-- A network view as React runs it.  `filters` is the filter object of the latest render and
`filtersId` its identity: every object literal handed to `setFilters` is a new object.
`effectDeps` is the identity of `filters` in the render whose effect ran last, `none` before
the first run.  `calls` records the calls of the adapter, oldest first. -/
structure Component (F : Type) where
  filters : F
  filtersId : Nat
  nextId : Nat
  effectDeps : Option Nat
  view : ViewState
  calls : List AdapterCall

/-- What React does after a render: the effect `useEffect(() => { fetchData(); }, [filters])`
runs when `filters` is not the object of the render whose effect ran last, and then
`fetchData` of this render, which sees this render's `filters`, calls the adapter. -/
def Component.commit {F : Type} (fetch : F → ViewState → ViewState) (call : F → AdapterCall)
    (c : Component F) : Component F :=
  if c.effectDeps = some c.filtersId then c
  else
    { c with effectDeps := some c.filtersId, view := fetch c.filters c.view,
             calls := c.calls ++ [call c.filters] }

/-- The adapter call `fetchData` of the citation view makes. -/
def CitationNetwork.call (filters : CitationNetwork.Filters) : AdapterCall :=
  { operation := "getCitationNetwork", limit := filters.limit.toJVal,
    minimum := filters.minCitations }

/-- Render and effects of the citation view after a state change. -/
def CitationNetwork.commit (get : Transport) (c : Component CitationNetwork.Filters) :
    Component CitationNetwork.Filters :=
  Component.commit (CitationNetwork.fetchData get) CitationNetwork.call c

/-- The adapter call `fetchData` of the collaboration view makes. -/
def CollaborationNetwork.call (filters : CollaborationNetwork.Filters) : AdapterCall :=
  { operation := "getCollaborationNetwork", limit := filters.limit.toJVal,
    minimum := filters.minCollaborations }

/-- Render and effects of the collaboration view after a state change. -/
def CollaborationNetwork.commit (get : Transport)
    (c : Component CollaborationNetwork.Filters) : Component CollaborationNetwork.Filters :=
  Component.commit (CollaborationNetwork.fetchData get) CollaborationNetwork.call c

namespace NetworkGraph

/-- An object as the renderer receives it in `nodes` and `links`: both callers build these
arrays from object literals. -/
abbrev Obj := List (String × JVal)

/-- The exact value of a square root over the number model: the integer `k`, the irrational
root of `n` (JavaScript has its nearest floating-point number), or `NaN`. -/
inductive Root where
  | exact (k : Nat)
  | surd (n : Nat)
  | nan
  deriving DecidableEq

/-- The function `Math.sqrt` on the number model: `NaN` for `NaN` and for negative numbers,
the integer root of a square, the irrational root otherwise. -/
def mathSqrt : JNum → Root
  | .nan => .nan
  | .int n =>
    if n < 0 then .nan
    else
      match (List.range (n.toNat + 1)).find? (fun k => k * k == n.toNat) with
      | some k => .exact k
      | none => .surd n.toNat

/-- The callback `d => Math.sqrt(d.weight || 1)` of the `stroke-width` attribute. -/
def strokeWidth (d : Obj) : Root :=
  let weight := JVal.lookup "weight" d
  mathSqrt (if weight.truthy then weight else JVal.num 1).toNumber

/-- An endpoint of a link once `d3.forceLink` is initialized: an identifier is replaced by the
node it names (here its position in `nodes`), a value whose `typeof` is `"object"` is left as
it is. -/
inductive Endpoint where
  | node (index : Nat)
  | kept (v : JVal)

/-- Whether `typeof v` is `"object"`. -/
def typeofObject : JVal → Bool
  | .null => true
  | .arr _ => true
  | .obj _ => true
  | _ => false

/-- Lookup in the map `new Map(nodes.map(d => [d.id, d]))` that `d3.forceLink` builds with the
accessor `d => d.id`: of several nodes with the same id the last one is found. -/
def findNode : List Obj → JVal → Option Nat
  | [], _ => none
  | n :: rest, id =>
    match findNode rest id with
    | some i => some (i + 1)
    | none => if JVal.sameValueZero (JVal.lookup "id" n) id then some 0 else none

/-- How `d3.forceLink` replaces one endpoint when the force is registered with the
simulation; an identifier that names no node makes it throw (text of d3-force 3). -/
def resolveEndpoint (nodes : List Obj) (v : JVal) : Except Thrown Endpoint :=
  if typeofObject v then .ok (.kept v)
  else
    match findNode nodes v with
    | some i => .ok (.node i)
    | none =>
      match v.toStr with
      | .ok text => .error (.error ("node not found: " ++ text))
      | .error e => .error e

/-- A `<line>` of the links group. -/
structure Line where
  datum : Obj
  source : Endpoint
  target : Endpoint
  stroke : String
  strokeOpacity : String
  strokeWidth : Root
  markerEnd : Option String
  x1 : JVal
  y1 : JVal
  x2 : JVal
  y2 : JVal

/-- A `<circle>` of the nodes group. -/
structure Circle where
  datum : Obj
  r : String
  fill : String
  stroke : String
  strokeWidth : String
  cx : JVal
  cy : JVal

/-- A `<text>` of the labels group. -/
structure Label where
  datum : Obj
  text : String
  x : JVal
  y : JVal

/-- What one run of the render effect leaves in the `<svg>`: its size, whether the arrowhead
marker was defined, the lines, the circles, and the labels group when it was appended. -/
structure Scene where
  width : Int
  height : Int
  marker : Bool
  lines : List Line
  circles : List Circle
  labels : Option (List Label)

/-- The drawing surface of the renderer: whether `svgRef.current` is set, what is drawn in the
`<svg>` (`none` for an empty one), how many simulations were created for it, and whether the
latest one is running. -/
structure Surface where
  attached : Bool
  scene : Option Scene
  simulations : Nat
  running : Bool

/-- The properties of the component.  A callback that is not supplied is `none`; a supplied
callback gives the text of the attribute for a node object. -/
structure Props where
  nodes : List Obj
  links : List Obj
  width : Int
  height : Int
  nodeRadius : Int
  linkDistance : Int
  chargeStrength : Int
  directed : Bool
  onNodeClick : Bool
  getNodeColor : Option (JVal → String)
  getNodeSize : Option (JVal → String)
  getNodeLabel : Option (JVal → String)

/-- The data join `selection.data(data).join(tag)` of d3 without a key: existing elements
are paired with the data by position and updated, an element is entered for each datum
beyond them, elements beyond the data are removed. -/
def dataJoin {ε δ : Type} (existing : List ε) (data : List δ) (update : ε → δ → ε)
    (enter : δ → ε) : List ε :=
  List.zipWith update existing data ++ (data.drop existing.length).map enter

/-- One link with its endpoints as `d3.forceLink` leaves them: source first, then target. -/
def resolveLink (nodes : List Obj) (link : Obj) : Except Thrown (Obj × Endpoint × Endpoint) :=
  match resolveEndpoint nodes (JVal.lookup "source" link) with
  | .error e => .error e
  | .ok source =>
    match resolveEndpoint nodes (JVal.lookup "target" link) with
    | .error e => .error e
    | .ok target => .ok (link, source, target)

/-- The `<line>` entered for a link, with the attributes the effect sets. -/
def lineOf (p : Props) (link : Obj × Endpoint × Endpoint) : Line :=
  { datum := link.1, source := link.2.1, target := link.2.2,
    stroke := "#999", strokeOpacity := "0.6", strokeWidth := strokeWidth link.1,
    markerEnd := if p.directed then some "url(#arrowhead)" else none,
    x1 := .undefined, y1 := .undefined, x2 := .undefined, y2 := .undefined }

/-- The `<circle>` entered for a node, with the attributes the effect sets. -/
def circleOf (p : Props) (node : Obj) : Circle :=
  { datum := node,
    r := match p.getNodeSize with
      | some size => size (.obj node)
      | none => toString p.nodeRadius,
    fill := match p.getNodeColor with
      | some colour => colour (.obj node)
      | none => "#69b3a2",
    stroke := "#fff", strokeWidth := "1.5", cx := .undefined, cy := .undefined }

/-- The `<text>` entered for a node by the label callback. -/
def labelOf (label : JVal → String) (node : Obj) : Label :=
  { datum := node, text := label (.obj node), x := .undefined, y := .undefined }

/-- The labels group of the effect: `if (nodes.length < 50 && getNodeLabel) { ... }`. -/
def labelsOf (p : Props) : Option (List Label) :=
  if p.nodes.length < 50 then
    match p.getNodeLabel with
    | some label => some (dataJoin [] p.nodes (fun e _ => e) (labelOf label))
    | none => none
  else none

/-- The render effect of the component on the surface `s`.  With no node or no `<svg>` it
returns at once.  Otherwise it removes what the `<svg>` holds, creates the simulation (where
`d3.forceLink` resolves the link endpoints and may throw) and enters the lines, the circles
and, for fewer than 50 nodes and a supplied label callback, the labels.  An exception ends the
effect; what it leaves in the `<svg>` is not modelled. -/
def renderEffect (p : Props) (s : Surface) : Except Thrown Surface :=
  if p.nodes.length == 0 || !s.attached then .ok s
  else
    match arrayMap (resolveLink p.nodes) p.links with
    | .error e => .error e
    | .ok resolved =>
      .ok { attached := s.attached,
            scene := some
              { width := p.width, height := p.height, marker := p.directed,
                lines := dataJoin [] resolved (fun e _ => e) (lineOf p),
                circles := dataJoin [] p.nodes (fun e _ => e) (circleOf p),
                labels := labelsOf p },
            simulations := s.simulations + 1,
            running := true }

/-- The cleanup of the effect: `simulation.stop()`. -/
def cleanup (s : Surface) : Surface :=
  { s with running := false }

/-- The coordinates the tick handler reads from an endpoint: those of the node the layout
moved, or the properties `x` and `y` of a value that was left as it is. -/
def endpointPosition (layout : Nat → JVal × JVal) : Endpoint → Except Thrown (JVal × JVal)
  | .node i => .ok (layout i)
  | .kept v =>
    match v.getProp "x" with
    | .error e => .error e
    | .ok x =>
      match v.getProp "y" with
      | .error e => .error e
      | .ok y => .ok (x, y)

/-- The tick handler on one line. -/
def tickLine (layout : Nat → JVal × JVal) (line : Line) : Except Thrown Line :=
  match endpointPosition layout line.source with
  | .error e => .error e
  | .ok a =>
    match endpointPosition layout line.target with
    | .error e => .error e
    | .ok b => .ok { line with x1 := a.1, y1 := a.2, x2 := b.1, y2 := b.2 }

/-- The tick handler of the simulation: `layout i` is the position the simulation has given
to the node at position `i` of `nodes`.  The test of the labels is the test of the render
effect on the same values, so the labels are moved exactly when the group exists. -/
def tick (layout : Nat → JVal × JVal) (scene : Scene) : Except Thrown Scene :=
  match arrayMap (tickLine layout) scene.lines with
  | .error e => .error e
  | .ok lines =>
    .ok { scene with
          lines := lines,
          circles := scene.circles.mapIdx
            (fun i c => { c with cx := (layout i).1, cy := (layout i).2 }),
          labels := scene.labels.map (fun ls =>
            ls.mapIdx (fun i l => { l with x := (layout i).1, y := (layout i).2 })) }

/-- A surface with an `<svg>` in which nothing has been drawn. -/
def Surface.empty : Surface :=
  { attached := true, scene := none, simulations := 0, running := false }

/-- Sample properties for given nodes and links: size, distances and direction as the
citation view passes them, the citation view's `getNodeColor`, no size callback, and a label
callback that shows the node's id. -/
def sampleProps (nodes links : List Obj) : Props :=
  { nodes := nodes, links := links, width := 1000, height := 700, nodeRadius := 5,
    linkDistance := 60, chargeStrength := -400, directed := true, onNodeClick := true,
    getNodeColor := some CitationNetwork.getNodeColor,
    getNodeSize := none,
    getNodeLabel := some (fun node =>
      match (node.ownProp "id").toStr with
      | .ok text => text
      | .error _ => "") }

end NetworkGraph

/-! ## Basic facts about values -/

theorem JVal.getProp_of_truthy {v : JVal} (h : v.truthy = true) (k : String) :
    v.getProp k = .ok (v.ownProp k) := by
  cases v <;> simp_all [JVal.getProp, JVal.truthy]

theorem JVal.truthy_of_isArray {v : JVal} (h : v.isArray = true) : v.truthy = true := by
  cases v <;> simp_all [JVal.isArray, JVal.truthy]

theorem CitationNetwork.citation_loadData_eq_loadCore (filters : CitationNetwork.Filters)
    (response : JVal) :
    CitationNetwork.loadData filters response =
      loadCore (CitationNetwork.emptyMessage filters) CitationNetwork.toLink response := by
  unfold CitationNetwork.loadData loadCore CitationNetwork.emptyMessage
  by_cases h : response.truthy = true
  · by_cases hn : (response.ownProp "nodes").isArray = true
    · by_cases he : (response.ownProp "edges").isArray = true
      · simp [h, hn, he, JVal.truthy_of_isArray hn, JVal.truthy_of_isArray he,
          JVal.getProp_of_truthy h, bind, Except.bind, pure, Except.pure, throw, throwThe,
          MonadExceptOf.throw]
        split_ifs
        · rfl
        · cases arrayMap normalizeNode (response.ownProp "nodes").elems with
          | error e => rfl
          | ok v => cases arrayMap toLink (response.ownProp "edges").elems <;> rfl
      · simp [h, hn, he, JVal.truthy_of_isArray hn, JVal.getProp_of_truthy h, bind,
          Except.bind, pure, Except.pure, throw, throwThe, MonadExceptOf.throw]
    · simp [h, hn, JVal.getProp_of_truthy h, bind, Except.bind, pure, Except.pure, throw,
        throwThe, MonadExceptOf.throw]
  · simp [h, bind, Except.bind, pure, Except.pure, throw, throwThe, MonadExceptOf.throw]

theorem CollaborationNetwork.collaboration_loadData_eq_loadCore (filters : CollaborationNetwork.Filters)
    (response : JVal) :
    CollaborationNetwork.loadData filters response =
      loadCore (CollaborationNetwork.emptyMessage filters) CollaborationNetwork.toLink
        response := by
  unfold CollaborationNetwork.loadData loadCore CollaborationNetwork.emptyMessage
  by_cases h : response.truthy = true
  · by_cases hn : (response.ownProp "nodes").isArray = true
    · by_cases he : (response.ownProp "edges").isArray = true
      · simp [h, hn, he, JVal.truthy_of_isArray hn, JVal.truthy_of_isArray he,
          JVal.getProp_of_truthy h, bind, Except.bind, pure, Except.pure, throw, throwThe,
          MonadExceptOf.throw]
        split_ifs
        · rfl
        · cases arrayMap normalizeNode (response.ownProp "nodes").elems with
          | error e => rfl
          | ok v => cases arrayMap toLink (response.ownProp "edges").elems <;> rfl
      · simp [h, hn, he, JVal.truthy_of_isArray hn, JVal.getProp_of_truthy h, bind,
          Except.bind, pure, Except.pure, throw, throwThe, MonadExceptOf.throw]
    · simp [h, hn, JVal.getProp_of_truthy h, bind, Except.bind, pure, Except.pure, throw,
        throwThe, MonadExceptOf.throw]
  · simp [h, bind, Except.bind, pure, Except.pure, throw, throwThe, MonadExceptOf.throw]

/-! ## What `loadData` accepts -/

theorem JVal.eq_arr_of_isArray {v : JVal} (h : v.isArray = true) : v = .arr v.elems := by
  cases v <;> simp_all [JVal.isArray, JVal.elems]

/-- A response is accepted exactly when it is truthy, both collections are arrays, the node
array is not empty and both `map` calls run through; the result is then determined. -/
theorem loadCore_eq_ok_iff (emptyMessage : String) (toLink : JVal → Except Thrown JVal)
    (response : JVal) (d : GraphData) :
    loadCore emptyMessage toLink response = .ok d ↔
      response.truthy = true ∧
      ∃ ns es nodes mapped,
        response.ownProp "nodes" = .arr ns ∧ response.ownProp "edges" = .arr es ∧ ns ≠ [] ∧
        arrayMap normalizeNode ns = .ok nodes ∧ arrayMap toLink es = .ok mapped ∧
        d = { nodes := .arr nodes, edges := .undefined,
              links := .arr (mapped.filter (isValid (nodes.map (fun n => n.ownProp "id")))),
              stats := response.ownProp "stats" } := by
  constructor
  · intro h
    unfold loadCore at h
    split_ifs at h with h1 h2 h3 h4
    have hn : (response.ownProp "nodes").isArray = true := by simpa using h2
    have he : (response.ownProp "edges").isArray = true := by simpa using h3
    refine ⟨by simpa using h1, (response.ownProp "nodes").elems,
      (response.ownProp "edges").elems, ?_⟩
    cases hm : arrayMap normalizeNode (response.ownProp "nodes").elems with
    | error e => simp [hm] at h
    | ok nodes =>
      cases hl : arrayMap toLink (response.ownProp "edges").elems with
      | error e => simp [hm, hl] at h
      | ok mapped =>
        simp only [hm, hl, Except.ok.injEq] at h
        refine ⟨nodes, mapped, JVal.eq_arr_of_isArray hn, JVal.eq_arr_of_isArray he, ?_, rfl,
          rfl, h.symm⟩
        intro hnil
        simp [hnil] at h4
  · rintro ⟨ht, ns, es, nodes, mapped, hn, he, hne, hm, hl, rfl⟩
    unfold loadCore
    have hlen : ¬ ((ns.length == 0) = true) := by
      cases ns with
      | nil => exact absurd rfl hne
      | cons a as => simp
    simp [ht, hn, he, JVal.isArray, JVal.elems, hm, hl, hlen]

/-! ## The callbacks -/

theorem arrayMap_forall₂ {α β : Type} {f : α → Except Thrown β} :
    ∀ {xs : List α} {ys : List β}, arrayMap f xs = .ok ys →
      List.Forall₂ (fun x y => f x = .ok y) xs ys
  | [], ys, h => by
    simp only [arrayMap, Except.ok.injEq] at h
    subst h
    exact List.Forall₂.nil
  | x :: xs, ys, h => by
    unfold arrayMap at h
    cases hx : f x with
    | error e => simp [hx] at h
    | ok y =>
      cases hxs : arrayMap f xs with
      | error e => simp [hx, hxs] at h
      | ok ys' =>
        simp only [hx, hxs, Except.ok.injEq] at h
        subst h
        exact List.Forall₂.cons hx (arrayMap_forall₂ hxs)

theorem forall₂_mem_right {α β : Type} {R : α → β → Prop} {xs : List α} {ys : List β}
    (h : List.Forall₂ R xs ys) : ∀ y ∈ ys, ∃ x ∈ xs, R x y := by
  induction h with
  | nil => intro y hy; cases hy
  | cons hxy _ ih =>
    intro y hy
    rcases List.mem_cons.1 hy with rfl | hy'
    · exact ⟨_, List.mem_cons_self _ _, hxy⟩
    · obtain ⟨x, hx, hr⟩ := ih y hy'
      exact ⟨x, List.mem_cons_of_mem _ hx, hr⟩

/-- Every element of the result of `map` comes from an element of the input. -/
theorem arrayMap_mem {α β : Type} {f : α → Except Thrown β} {xs : List α} {ys : List β}
    (h : arrayMap f xs = .ok ys) {y : β} (hy : y ∈ ys) : ∃ x ∈ xs, f x = .ok y :=
  forall₂_mem_right (arrayMap_forall₂ h) y hy

theorem arrayMap_ok_of_forall {α β : Type} (f : α → Except Thrown β) :
    ∀ xs : List α, (∀ x ∈ xs, ∃ y, f x = .ok y) → ∃ ys, arrayMap f xs = .ok ys
  | [], _ => ⟨[], rfl⟩
  | x :: xs, h => by
    obtain ⟨y, hy⟩ := h x (List.mem_cons_self x xs)
    obtain ⟨ys, hys⟩ := arrayMap_ok_of_forall f xs
      (fun z hz => h z (List.mem_cons_of_mem x hz))
    exact ⟨y :: ys, by simp [arrayMap, hy, hys]⟩

theorem JVal.lookup_setField (k : String) (v : JVal) :
    ∀ fs : List (String × JVal), JVal.lookup k (JVal.setField k v fs) = v
  | [] => by simp [JVal.setField, JVal.lookup]
  | (k', v') :: fs => by
    by_cases h : k' = k
    · simp [JVal.setField, JVal.lookup, h]
    · simp [JVal.setField, JVal.lookup, h, JVal.lookup_setField k v fs]

/-- A normalized node is the response node with `id` replaced by the string form of its id. -/
theorem normalizeNode_eq_ok {node m : JVal} (h : normalizeNode node = .ok m) :
    ∃ id s, node.getProp "id" = .ok id ∧ id.callToString "node.id" = .ok s ∧
      m = .obj (JVal.setField "id" (.str s) node.spreadProps) ∧ m.ownProp "id" = .str s := by
  unfold normalizeNode at h
  cases hid : node.getProp "id" with
  | error e => simp [hid] at h
  | ok id =>
    cases hs : id.callToString "node.id" with
    | error e => simp [hid, hs] at h
    | ok s =>
      simp only [hid, hs, Except.ok.injEq] at h
      subst h
      exact ⟨id, s, rfl, hs, rfl, by simp [JVal.ownProp, JVal.lookup_setField]⟩

/-- A citation link has exactly the string forms of the edge's `source` and `target`. -/
theorem CitationNetwork.citation_toLink_eq_ok {edge l : JVal} (h : CitationNetwork.toLink edge = .ok l) :
    ∃ a b s t, edge.getProp "source" = .ok a ∧ a.callToString "edge.source" = .ok s ∧
      edge.getProp "target" = .ok b ∧ b.callToString "edge.target" = .ok t ∧
      l = .obj [("source", .str s), ("target", .str t)] := by
  unfold CitationNetwork.toLink at h
  cases h1 : edge.getProp "source" with
  | error e => simp [h1] at h
  | ok a =>
    cases h2 : a.callToString "edge.source" with
    | error e => simp [h1, h2] at h
    | ok s =>
      cases h3 : edge.getProp "target" with
      | error e => simp [h1, h2, h3] at h
      | ok b =>
        cases h4 : b.callToString "edge.target" with
        | error e => simp [h1, h2, h3, h4] at h
        | ok t =>
          simp only [h1, h2, h3, h4, Except.ok.injEq] at h
          exact ⟨a, b, s, t, rfl, h2, rfl, h4, h.symm⟩

/-- A collaboration link has the string forms of `author1` and `author2` and the edge's
`weight` as it is. -/
theorem CollaborationNetwork.collaboration_toLink_eq_ok {edge l : JVal}
    (h : CollaborationNetwork.toLink edge = .ok l) :
    ∃ a b s t, edge.getProp "author1" = .ok a ∧ a.callToString "edge.author1" = .ok s ∧
      edge.getProp "author2" = .ok b ∧ b.callToString "edge.author2" = .ok t ∧
      l = .obj [("source", .str s), ("target", .str t), ("weight", edge.ownProp "weight")] := by
  unfold CollaborationNetwork.toLink at h
  cases h1 : edge.getProp "author1" with
  | error e => simp [h1] at h
  | ok a =>
    cases h2 : a.callToString "edge.author1" with
    | error e => simp [h1, h2] at h
    | ok s =>
      cases h3 : edge.getProp "author2" with
      | error e => simp [h1, h2, h3] at h
      | ok b =>
        cases h4 : b.callToString "edge.author2" with
        | error e => simp [h1, h2, h3, h4] at h
        | ok t =>
          simp only [h1, h2, h3, h4, Except.ok.injEq] at h
          exact ⟨a, b, s, t, rfl, h2, rfl, h4, h.symm⟩

theorem JVal.sameValueZero_str {x : JVal} {s : String}
    (h : JVal.sameValueZero x (.str s) = true) : x = .str s := by
  cases x <;> simp_all [JVal.sameValueZero]

theorem JVal.setHas_str_iff (set : List JVal) (s : String) :
    JVal.setHas set (.str s) = true ↔ JVal.str s ∈ set := by
  unfold JVal.setHas
  rw [List.any_eq_true]
  constructor
  · rintro ⟨x, hx, hsame⟩
    rw [← JVal.sameValueZero_str hsame]
    exact hx
  · intro h
    exact ⟨_, h, by simp [JVal.sameValueZero]⟩

/-! ## `fetchData` in terms of `loadCore` -/

/-- When the citation fetch ends without an error, the request was answered, the response
was accepted, and the state holds the reshaped data. -/
theorem CitationNetwork.citation_fetchData_ready {get : Transport} {filters : CitationNetwork.Filters}
    {s : ViewState} (h : (CitationNetwork.fetchData get filters s).error = none) :
    ∃ response d,
      get ⟨"/api/networks/citation",
        apiService.networkParams "min_citations" filters.limit.toJVal filters.minCitations⟩ =
          .ok response ∧
      loadCore (CitationNetwork.emptyMessage filters) CitationNetwork.toLink response.data =
        .ok d ∧
      CitationNetwork.fetchData get filters s = { data := d, loading := false, error := none } := by
  unfold CitationNetwork.fetchData apiService.getCitationNetwork at *
  cases hg : get ⟨"/api/networks/citation",
      apiService.networkParams "min_citations" filters.limit.toJVal filters.minCitations⟩ with
  | error e => simp [hg, bind, Except.bind] at h
  | ok response =>
    cases hl : loadCore (CitationNetwork.emptyMessage filters) CitationNetwork.toLink
        response.data with
    | error e =>
      simp [hg, bind, Except.bind, CitationNetwork.citation_loadData_eq_loadCore, hl] at h
    | ok d =>
      exact ⟨response, d, rfl, hl, by
        simp [bind, Except.bind, CitationNetwork.citation_loadData_eq_loadCore, hl]⟩

/-- A citation fetch that is answered ends as `loadData` decides. -/
theorem CitationNetwork.citation_fetchData_of_response {get : Transport}
    {filters : CitationNetwork.Filters} {response : AxiosResponse} (s : ViewState)
    (hg : get ⟨"/api/networks/citation",
        apiService.networkParams "min_citations" filters.limit.toJVal filters.minCitations⟩ =
          .ok response) :
    CitationNetwork.fetchData get filters s =
      match loadCore (CitationNetwork.emptyMessage filters) CitationNetwork.toLink
          response.data with
      | .ok d => { data := d, loading := false, error := none }
      | .error err =>
        { data := s.data, loading := false,
          error := some (orElse err.message "Failed to load citation network") } := by
  unfold CitationNetwork.fetchData apiService.getCitationNetwork
  simp only [hg, bind, Except.bind, CitationNetwork.citation_loadData_eq_loadCore]

/-- When the collaboration fetch ends without an error, the request was answered, the
response was accepted, and the state holds the reshaped data. -/
theorem CollaborationNetwork.collaboration_fetchData_ready {get : Transport}
    {filters : CollaborationNetwork.Filters} {s : ViewState}
    (h : (CollaborationNetwork.fetchData get filters s).error = none) :
    ∃ response d,
      get ⟨"/api/networks/collaboration",
        apiService.networkParams "min_collaborations" filters.limit.toJVal
          filters.minCollaborations⟩ = .ok response ∧
      loadCore (CollaborationNetwork.emptyMessage filters) CollaborationNetwork.toLink
        response.data = .ok d ∧
      CollaborationNetwork.fetchData get filters s =
        { data := d, loading := false, error := none } := by
  unfold CollaborationNetwork.fetchData apiService.getCollaborationNetwork at *
  cases hg : get ⟨"/api/networks/collaboration",
      apiService.networkParams "min_collaborations" filters.limit.toJVal
        filters.minCollaborations⟩ with
  | error e => simp [hg, bind, Except.bind] at h
  | ok response =>
    cases hl : loadCore (CollaborationNetwork.emptyMessage filters)
        CollaborationNetwork.toLink response.data with
    | error e =>
      simp [hg, bind, Except.bind, CollaborationNetwork.collaboration_loadData_eq_loadCore, hl] at h
    | ok d =>
      exact ⟨response, d, rfl, hl, by
        simp [bind, Except.bind, CollaborationNetwork.collaboration_loadData_eq_loadCore, hl]⟩

/-- A collaboration fetch that is answered ends as `loadData` decides. -/
theorem CollaborationNetwork.collaboration_fetchData_of_response {get : Transport}
    {filters : CollaborationNetwork.Filters} {response : AxiosResponse} (s : ViewState)
    (hg : get ⟨"/api/networks/collaboration",
        apiService.networkParams "min_collaborations" filters.limit.toJVal
          filters.minCollaborations⟩ = .ok response) :
    CollaborationNetwork.fetchData get filters s =
      match loadCore (CollaborationNetwork.emptyMessage filters) CollaborationNetwork.toLink
          response.data with
      | .ok d => { data := d, loading := false, error := none }
      | .error err =>
        { data := s.data, loading := false,
          error := some (orElse err.message "Failed to load collaboration network") } := by
  unfold CollaborationNetwork.fetchData apiService.getCollaborationNetwork
  simp only [hg, bind, Except.bind, CollaborationNetwork.collaboration_loadData_eq_loadCore]

/-! ## Links and nodes handed to the renderer -/

/-- In accepted data every link endpoint is the identifier, a string, of a rendered node. -/
theorem loadCore_links_endpoints {emptyMessage : String} {toLink : JVal → Except Thrown JVal}
    {response : JVal} {d : GraphData}
    (hlink : ∀ e l, toLink e = .ok l →
      ∃ a b, l.ownProp "source" = .str a ∧ l.ownProp "target" = .str b)
    (h : loadCore emptyMessage toLink response = .ok d) :
    ∀ l ∈ d.links.elems,
      (∃ n ∈ d.nodes.elems, ∃ sid, n.ownProp "id" = .str sid ∧ l.ownProp "source" = .str sid) ∧
      (∃ n ∈ d.nodes.elems, ∃ tid, n.ownProp "id" = .str tid ∧ l.ownProp "target" = .str tid) := by
  obtain ⟨_, ns, es, nodes, mapped, _, _, _, _, hl, rfl⟩ :=
    (loadCore_eq_ok_iff emptyMessage toLink response d).1 h
  intro l hmem
  simp only [JVal.elems, List.mem_filter] at hmem
  obtain ⟨hin, hvalid⟩ := hmem
  obtain ⟨e, he, hle⟩ := arrayMap_mem hl hin
  obtain ⟨a, b, ha, hb⟩ := hlink e l hle
  simp only [isValid, Bool.and_eq_true, ha, hb, JVal.setHas_str_iff, List.mem_map] at hvalid
  obtain ⟨⟨n, hn, hna⟩, ⟨m, hm, hmb⟩⟩ := hvalid
  exact ⟨⟨n, hn, a, hna, ha⟩, ⟨m, hm, b, hmb, hb⟩⟩

theorem CitationNetwork.citation_toLink_endpoints (e l : JVal) (h : CitationNetwork.toLink e = .ok l) :
    ∃ a b, l.ownProp "source" = .str a ∧ l.ownProp "target" = .str b := by
  obtain ⟨_, _, s, t, _, _, _, _, rfl⟩ := CitationNetwork.citation_toLink_eq_ok h
  exact ⟨s, t, by simp [JVal.ownProp, JVal.lookup], by simp [JVal.ownProp, JVal.lookup]⟩

theorem CollaborationNetwork.collaboration_toLink_endpoints (e l : JVal)
    (h : CollaborationNetwork.toLink e = .ok l) :
    ∃ a b, l.ownProp "source" = .str a ∧ l.ownProp "target" = .str b := by
  obtain ⟨_, _, s, t, _, _, _, _, rfl⟩ := CollaborationNetwork.collaboration_toLink_eq_ok h
  exact ⟨s, t, by simp [JVal.ownProp, JVal.lookup], by simp [JVal.ownProp, JVal.lookup]⟩

/-- C1: in the citation view and in the collaboration view, whenever a fetch ends without an
error (the response passed validation), every link handed to the renderer has a source and a
target that are each the identifier of a node in the node list of the same state. -/
theorem links_reference_rendered_nodes (get : Transport) (s : ViewState) :
    (∀ filters : CitationNetwork.Filters,
      (CitationNetwork.fetchData get filters s).error = none →
      ∀ l ∈ (CitationNetwork.fetchData get filters s).data.links.elems,
        (∃ n ∈ (CitationNetwork.fetchData get filters s).data.nodes.elems,
          ∃ sid, n.ownProp "id" = .str sid ∧ l.ownProp "source" = .str sid) ∧
        (∃ n ∈ (CitationNetwork.fetchData get filters s).data.nodes.elems,
          ∃ tid, n.ownProp "id" = .str tid ∧ l.ownProp "target" = .str tid)) ∧
    (∀ filters : CollaborationNetwork.Filters,
      (CollaborationNetwork.fetchData get filters s).error = none →
      ∀ l ∈ (CollaborationNetwork.fetchData get filters s).data.links.elems,
        (∃ n ∈ (CollaborationNetwork.fetchData get filters s).data.nodes.elems,
          ∃ sid, n.ownProp "id" = .str sid ∧ l.ownProp "source" = .str sid) ∧
        (∃ n ∈ (CollaborationNetwork.fetchData get filters s).data.nodes.elems,
          ∃ tid, n.ownProp "id" = .str tid ∧ l.ownProp "target" = .str tid)) := by
  constructor
  · intro filters h
    obtain ⟨response, d, _, hd, hs⟩ := CitationNetwork.citation_fetchData_ready h
    rw [hs]
    exact loadCore_links_endpoints CitationNetwork.citation_toLink_endpoints hd
  · intro filters h
    obtain ⟨response, d, _, hd, hs⟩ := CollaborationNetwork.collaboration_fetchData_ready h
    rw [hs]
    exact loadCore_links_endpoints CollaborationNetwork.collaboration_toLink_endpoints hd

/-- C1, at the sample citation response: the fetch is accepted, the edge from paper 1 to
paper 2 is handed over, and both its endpoints are rendered nodes. -/
theorem links_reference_rendered_nodes_witness :
    (∃ n ∈ (CitationNetwork.fetchData (respondWith sampleCitationBody)
          CitationNetwork.Filters.initial ViewState.initial).data.nodes.elems,
        ∃ sid, n.ownProp "id" = .str sid ∧
          (JVal.obj [("source", .str "1"), ("target", .str "2")]).ownProp "source" =
            .str sid) ∧
    (∃ n ∈ (CitationNetwork.fetchData (respondWith sampleCitationBody)
          CitationNetwork.Filters.initial ViewState.initial).data.nodes.elems,
        ∃ tid, n.ownProp "id" = .str tid ∧
          (JVal.obj [("source", .str "1"), ("target", .str "2")]).ownProp "target" =
            .str tid) :=
  (links_reference_rendered_nodes (respondWith sampleCitationBody) ViewState.initial).1
    CitationNetwork.Filters.initial (by decide)
    (.obj [("source", .str "1"), ("target", .str "2")]) (List.Mem.head _)

/-! ## Records that can be reshaped -/

theorem JVal.callToString_ok_of_hasStringForm {v : JVal} (h : v.hasStringForm = true)
    (expr : String) : ∃ s, v.callToString expr = .ok s := by
  unfold JVal.hasStringForm at h
  cases v with
  | obj fs =>
    by_cases hown : JVal.hasOwn "toString" fs = true
    · simp [JVal.callToString, hown] at h
    · exact ⟨"[object Object]", by simp [JVal.callToString, hown]⟩
  | undefined => simp [JVal.callToString] at h
  | null => simp [JVal.callToString] at h
  | bool b => exact ⟨_, rfl⟩
  | num n => exact ⟨_, rfl⟩
  | nan => exact ⟨_, rfl⟩
  | str s => exact ⟨_, rfl⟩
  | arr xs =>
    cases hx : (JVal.arr xs).callToString "" with
    | error e => simp [hx] at h
    | ok s => exact ⟨s, by simpa [JVal.callToString] using hx⟩

theorem normalizeNode_ok_of_hasIdentifier {node : JVal} (h : hasIdentifier node = true) :
    ∃ m, normalizeNode node = .ok m := by
  unfold hasIdentifier at h
  cases hid : node.getProp "id" with
  | error e => simp [hid] at h
  | ok id =>
    simp only [hid] at h
    obtain ⟨s, hs⟩ := JVal.callToString_ok_of_hasStringForm h "node.id"
    exact ⟨.obj (JVal.setField "id" (.str s) node.spreadProps), by
      simp [normalizeNode, hid, hs]⟩

theorem CitationNetwork.citation_toLink_ok_of_hasEndpoints {edge : JVal}
    (h : hasEndpoints "source" "target" edge = true) :
    ∃ l, CitationNetwork.toLink edge = .ok l := by
  unfold hasEndpoints at h
  cases h1 : edge.getProp "source" with
  | error e => simp [h1] at h
  | ok a =>
    cases h2 : edge.getProp "target" with
    | error e => simp [h1, h2] at h
    | ok b =>
      simp only [h1, h2, Bool.and_eq_true] at h
      obtain ⟨s, hs⟩ := JVal.callToString_ok_of_hasStringForm h.1 "edge.source"
      obtain ⟨t, ht⟩ := JVal.callToString_ok_of_hasStringForm h.2 "edge.target"
      exact ⟨.obj [("source", .str s), ("target", .str t)], by
        simp [CitationNetwork.toLink, h1, h2, hs, ht]⟩

theorem CollaborationNetwork.collaboration_toLink_ok_of_hasEndpoints {edge : JVal}
    (h : hasEndpoints "author1" "author2" edge = true) :
    ∃ l, CollaborationNetwork.toLink edge = .ok l := by
  unfold hasEndpoints at h
  cases h1 : edge.getProp "author1" with
  | error e => simp [h1] at h
  | ok a =>
    cases h2 : edge.getProp "author2" with
    | error e => simp [h1, h2] at h
    | ok b =>
      simp only [h1, h2, Bool.and_eq_true] at h
      obtain ⟨s, hs⟩ := JVal.callToString_ok_of_hasStringForm h.1 "edge.author1"
      obtain ⟨t, ht⟩ := JVal.callToString_ok_of_hasStringForm h.2 "edge.author2"
      exact ⟨.obj [("source", .str s), ("target", .str t), ("weight", edge.ownProp "weight")],
        by simp [CollaborationNetwork.toLink, h1, h2, hs, ht]⟩

theorem JVal.truthy_of_ownProp_arr {v : JVal} {k : String} {xs : List JVal}
    (h : v.ownProp k = .arr xs) : v.truthy = true := by
  cases v <;> simp_all [JVal.ownProp, JVal.truthy]

theorem arrayMap_length {α β : Type} {f : α → Except Thrown β} {xs : List α} {ys : List β}
    (h : arrayMap f xs = .ok ys) : ys.length = xs.length :=
  (List.Forall₂.length_eq (arrayMap_forall₂ h)).symm

/-- A response with a non-empty array of nodes with identifiers and an array of edge records
the callback can reshape is accepted; the links are the reshaped edges that pass the filter. -/
theorem loadCore_ok_of_shapes (emptyMessage : String) {toLink : JVal → Except Thrown JVal}
    {response : JVal} {ns es : List JVal}
    (hn : response.ownProp "nodes" = .arr ns) (hne : ns ≠ [])
    (hids : ∀ n ∈ ns, hasIdentifier n = true)
    (he : response.ownProp "edges" = .arr es) (hes : ∀ e ∈ es, ∃ l, toLink e = .ok l) :
    ∃ nodes mapped,
      arrayMap normalizeNode ns = .ok nodes ∧ arrayMap toLink es = .ok mapped ∧
      mapped.length = es.length ∧
      loadCore emptyMessage toLink response =
        .ok { nodes := .arr nodes, edges := .undefined,
              links := .arr (mapped.filter (isValid (nodes.map (fun n => n.ownProp "id")))),
              stats := response.ownProp "stats" } := by
  obtain ⟨nodes, hnodes⟩ := arrayMap_ok_of_forall normalizeNode ns
    (fun n hmem => normalizeNode_ok_of_hasIdentifier (hids n hmem))
  obtain ⟨mapped, hmapped⟩ := arrayMap_ok_of_forall toLink es hes
  exact ⟨nodes, mapped, hnodes, hmapped, arrayMap_length hmapped,
    (loadCore_eq_ok_iff emptyMessage toLink response _).2
      ⟨JVal.truthy_of_ownProp_arr hn, ns, es, nodes, mapped, hn, he, hne, hnodes, hmapped, rfl⟩⟩

/-! ## C2: which responses end in the ready state -/

/-- C2 (counterexample): the node array is non-empty, its node has an identifier and the edge
collection is an array, yet the edge record without a `source` field makes the citation
fetch end in the error state: the error panel shows the exception text. -/
theorem edge_without_source_ends_in_error :
    edgeWithoutSourceBody.ownProp "nodes" = .arr [.obj [("id", .str "a")]] ∧
    hasIdentifier (.obj [("id", .str "a")]) = true ∧
    (edgeWithoutSourceBody.ownProp "edges").isArray = true ∧
    (CitationNetwork.fetchData (respondWith edgeWithoutSourceBody)
        CitationNetwork.Filters.initial ViewState.initial).error =
      some "Cannot read properties of undefined (reading 'toString')" ∧
    (CitationNetwork.fetchData (respondWith edgeWithoutSourceBody)
        CitationNetwork.Filters.initial ViewState.initial).render =
      .error "Cannot read properties of undefined (reading 'toString')" :=
  ⟨rfl, by decide, by decide, by decide, by decide⟩

/-- C2 (amended): for every response whose node collection is a non-empty array of nodes with
identifiers and whose edge collection is an array of records that each have both endpoint
fields, the citation view and the collaboration view end in the ready state: error unset,
loading off, the content panel shown, and the data replaced by the normalized nodes and by
the reshaped edges that pass the validity filter (one reshaped edge per record; edges with an
unknown endpoint are only dropped). -/
theorem wellformed_records_end_ready (get : Transport) (s : ViewState)
    (response : AxiosResponse) (ns es : List JVal)
    (hn : response.data.ownProp "nodes" = .arr ns) (hne : ns ≠ [])
    (hids : ∀ n ∈ ns, hasIdentifier n = true)
    (he : response.data.ownProp "edges" = .arr es) :
    (∀ filters : CitationNetwork.Filters,
      get ⟨"/api/networks/citation",
        apiService.networkParams "min_citations" filters.limit.toJVal filters.minCitations⟩ =
          .ok response →
      (∀ e ∈ es, hasEndpoints "source" "target" e = true) →
      ∃ nodes mapped,
        arrayMap normalizeNode ns = .ok nodes ∧
        arrayMap CitationNetwork.toLink es = .ok mapped ∧ mapped.length = es.length ∧
        CitationNetwork.fetchData get filters s =
          { data := { nodes := .arr nodes, edges := .undefined,
                      links := .arr (mapped.filter
                        (isValid (nodes.map (fun n => n.ownProp "id")))),
                      stats := response.data.ownProp "stats" },
            loading := false, error := none } ∧
        (CitationNetwork.fetchData get filters s).render = .content) ∧
    (∀ filters : CollaborationNetwork.Filters,
      get ⟨"/api/networks/collaboration",
        apiService.networkParams "min_collaborations" filters.limit.toJVal
          filters.minCollaborations⟩ = .ok response →
      (∀ e ∈ es, hasEndpoints "author1" "author2" e = true) →
      ∃ nodes mapped,
        arrayMap normalizeNode ns = .ok nodes ∧
        arrayMap CollaborationNetwork.toLink es = .ok mapped ∧ mapped.length = es.length ∧
        CollaborationNetwork.fetchData get filters s =
          { data := { nodes := .arr nodes, edges := .undefined,
                      links := .arr (mapped.filter
                        (isValid (nodes.map (fun n => n.ownProp "id")))),
                      stats := response.data.ownProp "stats" },
            loading := false, error := none } ∧
        (CollaborationNetwork.fetchData get filters s).render = .content) := by
  constructor
  · intro filters hg hes
    obtain ⟨nodes, mapped, h1, h2, h3, h4⟩ :=
      loadCore_ok_of_shapes (CitationNetwork.emptyMessage filters) hn hne hids he
        (fun e hmem => CitationNetwork.citation_toLink_ok_of_hasEndpoints (hes e hmem))
    have hfetch := CitationNetwork.citation_fetchData_of_response s hg
    rw [h4] at hfetch
    exact ⟨nodes, mapped, h1, h2, h3, hfetch, by rw [hfetch]; rfl⟩
  · intro filters hg hes
    obtain ⟨nodes, mapped, h1, h2, h3, h4⟩ :=
      loadCore_ok_of_shapes (CollaborationNetwork.emptyMessage filters) hn hne
        hids he (fun e hmem => CollaborationNetwork.collaboration_toLink_ok_of_hasEndpoints (hes e hmem))
    have hfetch := CollaborationNetwork.collaboration_fetchData_of_response s hg
    rw [h4] at hfetch
    exact ⟨nodes, mapped, h1, h2, h3, hfetch, by rw [hfetch]; rfl⟩

/-- C2 (amended), at the sample citation response: both nodes have identifiers, both edge
records have their endpoint fields, and the fetch ends in the ready state. -/
theorem wellformed_records_end_ready_witness :
    ∃ nodes mapped,
      arrayMap normalizeNode
          [.obj [("id", .num 1), ("year", .num 2021)], .obj [("id", .str "2")]] = .ok nodes ∧
      arrayMap CitationNetwork.toLink
          [.obj [("source", .num 1), ("target", .num 2)],
           .obj [("source", .num 1), ("target", .num 3)]] = .ok mapped ∧
      mapped.length = 2 ∧
      CitationNetwork.fetchData (respondWith sampleCitationBody)
          CitationNetwork.Filters.initial ViewState.initial =
        { data := { nodes := .arr nodes, edges := .undefined,
                    links := .arr (mapped.filter
                      (isValid (nodes.map (fun n => n.ownProp "id")))),
                    stats := sampleCitationBody.ownProp "stats" },
          loading := false, error := none } ∧
      (CitationNetwork.fetchData (respondWith sampleCitationBody)
          CitationNetwork.Filters.initial ViewState.initial).render = .content :=
  (wellformed_records_end_ready (respondWith sampleCitationBody) ViewState.initial
      { data := sampleCitationBody, status := 200 }
      [.obj [("id", .num 1), ("year", .num 2021)], .obj [("id", .str "2")]]
      [.obj [("source", .num 1), ("target", .num 2)],
       .obj [("source", .num 1), ("target", .num 3)]]
      rfl (by simp) (by decide) rfl).1
    CitationNetwork.Filters.initial rfl (by decide)

/-! ## Exceptions raised while reshaping -/

theorem JVal.joinStep_error {x : JVal} {sx srest : Except Thrown String} {rest : List JVal}
    {e : Thrown} (h : JVal.joinStep x sx rest srest = .error e) :
    sx = .error e ∨ srest = .error e := by
  unfold JVal.joinStep at h
  cases x <;> cases sx <;> cases rest <;> cases srest <;> simp_all

mutual
/-- The only exception `ToString` raises on a parsed value. -/
theorem JVal.toStr_error : ∀ (v : JVal) (e : Thrown), v.toStr = .error e →
    e = .typeError "Cannot convert object to primitive value"
  | .undefined, e, h => by simp [JVal.toStr] at h
  | .null, e, h => by simp [JVal.toStr] at h
  | .bool b, e, h => by simp [JVal.toStr] at h
  | .num n, e, h => by simp [JVal.toStr] at h
  | .nan, e, h => by simp [JVal.toStr] at h
  | .str s, e, h => by simp [JVal.toStr] at h
  | .arr xs, e, h => by
    rw [JVal.toStr] at h
    exact JVal.joinStr_error xs e h
  | .obj fs, e, h => by
    rw [JVal.toStr] at h
    split at h
    · simp only [Except.error.injEq] at h
      exact h.symm
    · simp at h
/-- The only exception `join` raises on an array of parsed values. -/
theorem JVal.joinStr_error : ∀ (xs : List JVal) (e : Thrown), JVal.joinStr xs = .error e →
    e = .typeError "Cannot convert object to primitive value"
  | [], e, h => by simp [JVal.joinStr] at h
  | x :: rest, e, h => by
    rw [JVal.joinStr] at h
    rcases JVal.joinStep_error h with h | h
    · exact JVal.toStr_error x e h
    · exact JVal.joinStr_error rest e h
end

/-! ## C3: the "no results" path -/

theorem append_ne_empty (a b : String) (ha : a ≠ "") : a ++ b ≠ "" := by
  intro h
  apply ha
  have hdata := congrArg String.data h
  simp only [String.data_append] at hdata
  apply String.ext
  simp at hdata
  simp [hdata.1]

theorem orElse_of_ne (m fallback : String) (hm : m ≠ "") : orElse m fallback = m := by
  unfold orElse
  rw [if_neg hm]

theorem orElse_append (a b fallback : String) (ha : a ≠ "") :
    orElse (a ++ b) fallback = a ++ b :=
  orElse_of_ne _ _ (append_ne_empty a b ha)

/-- With loading off and a non-empty error text the view shows the error panel. -/
theorem ViewState.render_error (d : GraphData) (m : String) (hm : m ≠ "") :
    ViewState.render { data := d, loading := false, error := some m } = .error m := by
  simp [ViewState.render, hm]

theorem JVal.isArray_arr (xs : List JVal) : (JVal.arr xs).isArray = true := rfl

theorem JVal.elems_arr (xs : List JVal) : (JVal.arr xs).elems = xs := rfl

theorem loadCore_of_empty_nodes {emptyMessage : String} {toLink : JVal → Except Thrown JVal}
    {response : JVal} (hn : response.ownProp "nodes" = .arr [])
    (he : (response.ownProp "edges").isArray = true) :
    loadCore emptyMessage toLink response = .error (.error emptyMessage) := by
  unfold loadCore
  simp [JVal.truthy_of_ownProp_arr hn, hn, he, JVal.isArray_arr, JVal.elems_arr]

/-- C3 (counterexample): a response whose node collection is an empty array but that has no
`edges` field does not give the "No papers found" message: the citation view reports an
invalid response format. -/
theorem empty_nodes_without_edges_is_format_error :
    emptyNodesOnlyBody.ownProp "nodes" = .arr [] ∧
    (CitationNetwork.fetchData (respondWith emptyNodesOnlyBody)
        CitationNetwork.Filters.initial ViewState.initial).error =
      some "Invalid response format: edges missing or not an array" :=
  ⟨rfl, by decide⟩

/-- C3 (amended): for every response whose node collection is an empty array and whose edge
collection is an array, the citation view (likewise the collaboration view) ends in the
error state with the message "No papers found with these filters" ("No authors found ...")
that prints the limit and the minimum of the filters the request was made with; the data
state is left as it was, and the error panel is shown, not the graph. -/
theorem empty_node_array_reports_no_results (get : Transport) (s : ViewState)
    (response : AxiosResponse) (hn : response.data.ownProp "nodes" = .arr [])
    (he : (response.data.ownProp "edges").isArray = true) :
    (∀ filters : CitationNetwork.Filters,
      get ⟨"/api/networks/citation",
        apiService.networkParams "min_citations" filters.limit.toJVal filters.minCitations⟩ =
          .ok response →
      CitationNetwork.fetchData get filters s =
        { data := s.data, loading := false,
          error := some ("No papers found with these filters (limit: " ++
            filters.limit.toStr ++ ", min citations: " ++ filters.minCitations.toStr ++ ")") } ∧
      (CitationNetwork.fetchData get filters s).render =
        .error ("No papers found with these filters (limit: " ++
          filters.limit.toStr ++ ", min citations: " ++ filters.minCitations.toStr ++ ")")) ∧
    (∀ filters : CollaborationNetwork.Filters,
      get ⟨"/api/networks/collaboration",
        apiService.networkParams "min_collaborations" filters.limit.toJVal
          filters.minCollaborations⟩ = .ok response →
      CollaborationNetwork.fetchData get filters s =
        { data := s.data, loading := false,
          error := some ("No authors found with these filters (limit: " ++
            filters.limit.toStr ++ ", min collaborations: " ++
            filters.minCollaborations.toStr ++ ")") } ∧
      (CollaborationNetwork.fetchData get filters s).render =
        .error ("No authors found with these filters (limit: " ++
          filters.limit.toStr ++ ", min collaborations: " ++
          filters.minCollaborations.toStr ++ ")")) := by
  constructor
  · intro filters hg
    have hfetch := CitationNetwork.citation_fetchData_of_response s hg
    rw [loadCore_of_empty_nodes hn he] at hfetch
    have hmsg : orElse (Thrown.error (CitationNetwork.emptyMessage filters)).message
        "Failed to load citation network" =
        "No papers found with these filters (limit: " ++
          filters.limit.toStr ++ ", min citations: " ++ filters.minCitations.toStr ++ ")" := by
      simp only [Thrown.message, CitationNetwork.emptyMessage, String.append_assoc]
      exact orElse_append _ _ _ (by decide)
    simp only [hmsg] at hfetch
    refine ⟨hfetch, ?_⟩
    rw [hfetch]
    apply ViewState.render_error
    simp only [String.append_assoc]
    exact append_ne_empty _ _ (by decide)
  · intro filters hg
    have hfetch := CollaborationNetwork.collaboration_fetchData_of_response s hg
    rw [loadCore_of_empty_nodes hn he] at hfetch
    have hmsg : orElse (Thrown.error (CollaborationNetwork.emptyMessage filters)).message
        "Failed to load collaboration network" =
        "No authors found with these filters (limit: " ++
          filters.limit.toStr ++ ", min collaborations: " ++
          filters.minCollaborations.toStr ++ ")" := by
      simp only [Thrown.message, CollaborationNetwork.emptyMessage, String.append_assoc]
      exact orElse_append _ _ _ (by decide)
    simp only [hmsg] at hfetch
    refine ⟨hfetch, ?_⟩
    rw [hfetch]
    apply ViewState.render_error
    simp only [String.append_assoc]
    exact append_ne_empty _ _ (by decide)

/-- C3 (amended), at a response with an empty node array and an empty edge array, fetched
with the initial filters of the citation view (limit 100, minimum 0). -/
theorem empty_node_array_reports_no_results_witness :
    CitationNetwork.fetchData (respondWith emptyGraphBody) CitationNetwork.Filters.initial
        ViewState.initial =
      { data := ViewState.initial.data, loading := false,
        error := some ("No papers found with these filters (limit: " ++
          CitationNetwork.Filters.initial.limit.toStr ++ ", min citations: " ++
          CitationNetwork.Filters.initial.minCitations.toStr ++ ")") } ∧
    (CitationNetwork.fetchData (respondWith emptyGraphBody) CitationNetwork.Filters.initial
        ViewState.initial).render =
      .error ("No papers found with these filters (limit: " ++
        CitationNetwork.Filters.initial.limit.toStr ++ ", min citations: " ++
        CitationNetwork.Filters.initial.minCitations.toStr ++ ")") :=
  (empty_node_array_reports_no_results (respondWith emptyGraphBody) ViewState.initial
      { data := emptyGraphBody, status := 200 } rfl (by decide)).1
    CitationNetwork.Filters.initial rfl

/-! ## C4: the "invalid response format" path -/

theorem JVal.getProp_error {v : JVal} {k : String} {e : Thrown} (h : v.getProp k = .error e) :
    e = .typeError ("Cannot read properties of undefined (reading '" ++ k ++ "')") ∨
    e = .typeError ("Cannot read properties of null (reading '" ++ k ++ "')") := by
  cases v <;> simp_all [JVal.getProp]

theorem JVal.callToString_error {v : JVal} {expr : String} {e : Thrown}
    (h : v.callToString expr = .error e) :
    e = .typeError "Cannot read properties of undefined (reading 'toString')" ∨
    e = .typeError "Cannot read properties of null (reading 'toString')" ∨
    e = .typeError (expr ++ ".toString is not a function") ∨
    e = .typeError "Cannot convert object to primitive value" := by
  cases v with
  | undefined => simp_all [JVal.callToString]
  | null => simp_all [JVal.callToString]
  | bool b => simp [JVal.callToString, JVal.toStr] at h
  | num n => simp [JVal.callToString, JVal.toStr] at h
  | nan => simp [JVal.callToString, JVal.toStr] at h
  | str s => simp [JVal.callToString, JVal.toStr] at h
  | arr xs =>
    right; right; right
    exact JVal.toStr_error (.arr xs) e (by simpa [JVal.callToString] using h)
  | obj fs =>
    by_cases hown : JVal.hasOwn "toString" fs = true
    · simp only [JVal.callToString, hown, if_true, Except.error.injEq] at h
      exact Or.inr (Or.inr (Or.inl h.symm))
    · simp [JVal.callToString, hown] at h

theorem arrayMap_error {α β : Type} {f : α → Except Thrown β} :
    ∀ {xs : List α} {e : Thrown}, arrayMap f xs = .error e → ∃ x ∈ xs, f x = .error e
  | [], e, h => by simp [arrayMap] at h
  | x :: xs, e, h => by
    unfold arrayMap at h
    cases hx : f x with
    | error e' =>
      simp only [hx, Except.error.injEq] at h
      exact ⟨x, List.mem_cons_self x xs, by rw [hx, h]⟩
    | ok y =>
      cases hxs : arrayMap f xs with
      | error e' =>
        simp only [hx, hxs, Except.error.injEq] at h
        obtain ⟨z, hz, hfz⟩ := arrayMap_error hxs
        exact ⟨z, List.mem_cons_of_mem x hz, by rw [hfz, h]⟩
      | ok ys => simp [hx, hxs] at h

theorem normalizeNode_error {node : JVal} {e : Thrown} (h : normalizeNode node = .error e) :
    e.otherError := by
  unfold normalizeNode at h
  cases hid : node.getProp "id" with
  | error e' =>
    simp only [hid, Except.error.injEq] at h
    subst h
    rcases JVal.getProp_error hid with rfl | rfl <;> exact ⟨by decide, by decide⟩
  | ok id =>
    cases hs : id.callToString "node.id" with
    | error e' =>
      simp only [hid, hs, Except.error.injEq] at h
      subst h
      rcases JVal.callToString_error hs with rfl | rfl | rfl | rfl <;>
        exact ⟨by decide, by decide⟩
    | ok s => simp [hid, hs] at h

theorem CitationNetwork.citation_toLink_error {edge : JVal} {e : Thrown}
    (h : CitationNetwork.toLink edge = .error e) : e.otherError := by
  unfold CitationNetwork.toLink at h
  cases h1 : edge.getProp "source" with
  | error e' =>
    simp only [h1, Except.error.injEq] at h
    subst h
    rcases JVal.getProp_error h1 with rfl | rfl <;> exact ⟨by decide, by decide⟩
  | ok a =>
    cases h2 : a.callToString "edge.source" with
    | error e' =>
      simp only [h1, h2, Except.error.injEq] at h
      subst h
      rcases JVal.callToString_error h2 with rfl | rfl | rfl | rfl <;>
        exact ⟨by decide, by decide⟩
    | ok s =>
      cases h3 : edge.getProp "target" with
      | error e' =>
        simp only [h1, h2, h3, Except.error.injEq] at h
        subst h
        rcases JVal.getProp_error h3 with rfl | rfl <;> exact ⟨by decide, by decide⟩
      | ok b =>
        cases h4 : b.callToString "edge.target" with
        | error e' =>
          simp only [h1, h2, h3, h4, Except.error.injEq] at h
          subst h
          rcases JVal.callToString_error h4 with rfl | rfl | rfl | rfl <;>
            exact ⟨by decide, by decide⟩
        | ok t => simp [h1, h2, h3, h4] at h

theorem CollaborationNetwork.collaboration_toLink_error {edge : JVal} {e : Thrown}
    (h : CollaborationNetwork.toLink edge = .error e) : e.otherError := by
  unfold CollaborationNetwork.toLink at h
  cases h1 : edge.getProp "author1" with
  | error e' =>
    simp only [h1, Except.error.injEq] at h
    subst h
    rcases JVal.getProp_error h1 with rfl | rfl <;> exact ⟨by decide, by decide⟩
  | ok a =>
    cases h2 : a.callToString "edge.author1" with
    | error e' =>
      simp only [h1, h2, Except.error.injEq] at h
      subst h
      rcases JVal.callToString_error h2 with rfl | rfl | rfl | rfl <;>
        exact ⟨by decide, by decide⟩
    | ok s =>
      cases h3 : edge.getProp "author2" with
      | error e' =>
        simp only [h1, h2, h3, Except.error.injEq] at h
        subst h
        rcases JVal.getProp_error h3 with rfl | rfl <;> exact ⟨by decide, by decide⟩
      | ok b =>
        cases h4 : b.callToString "edge.author2" with
        | error e' =>
          simp only [h1, h2, h3, h4, Except.error.injEq] at h
          subst h
          rcases JVal.callToString_error h4 with rfl | rfl | rfl | rfl <;>
            exact ⟨by decide, by decide⟩
        | ok t => simp [h1, h2, h3, h4] at h

theorem loadCore_error_of_arrays {emptyMessage : String} {toLink : JVal → Except Thrown JVal}
    {response : JVal} {e : Thrown} (ht : response.truthy = true)
    (hn : (response.ownProp "nodes").isArray = true)
    (he : (response.ownProp "edges").isArray = true)
    (hmsg : (Thrown.error emptyMessage).otherError)
    (hlink : ∀ x e, toLink x = .error e → e.otherError)
    (h : loadCore emptyMessage toLink response = .error e) : e.otherError := by
  unfold loadCore at h
  simp only [ht, hn, he, Bool.true_eq_false, if_false] at h
  split_ifs at h
  · simp only [Except.error.injEq] at h
    rw [← h]
    exact hmsg
  · cases hm : arrayMap normalizeNode (response.ownProp "nodes").elems with
    | error e' =>
      simp only [hm, Except.error.injEq] at h
      obtain ⟨x, _, hx⟩ := arrayMap_error hm
      rw [← h]
      exact normalizeNode_error hx
    | ok nodes =>
      cases hl : arrayMap toLink (response.ownProp "edges").elems with
      | error e' =>
        simp only [hm, hl, Except.error.injEq] at h
        obtain ⟨x, _, hx⟩ := arrayMap_error hl
        rw [← h]
        exact hlink x e' hx
      | ok mapped => simp [hm, hl] at h

/-- The state both `fetchData` functions reach from the outcome of `loadData`. -/
theorem format_error_of_outcome {emptyMessage fallback : String}
    {toLink : JVal → Except Thrown JVal} {response : JVal} {s st : ViewState}
    (ht : response.truthy = true)
    (hmsg : (Thrown.error emptyMessage).otherError)
    (hlink : ∀ x e, toLink x = .error e → e.otherError)
    (hst : st =
      match loadCore emptyMessage toLink response with
      | .ok d => { data := d, loading := false, error := none }
      | .error err =>
        { data := s.data, loading := false, error := some (orElse err.message fallback) }) :
    ((∃ msg, st.error = some msg ∧ startsWith "Invalid response format" msg = true) ↔
      (response.ownProp "nodes" = .undefined ∨ (response.ownProp "nodes").isArray = false ∨
        response.ownProp "edges" = .undefined ∨ (response.ownProp "edges").isArray = false)) ∧
    (response.ownProp "edges" = .undefined →
      ∃ msg, startsWith "Invalid response format" msg = true ∧
        st = { data := s.data, loading := false, error := some msg } ∧
        st.render = .error msg) := by
  have hmissing : ∀ k, response.ownProp k = .undefined → (response.ownProp k).isArray = false := by
    intro k hk
    rw [hk]
    rfl
  by_cases hn : (response.ownProp "nodes").isArray = true
  · by_cases he : (response.ownProp "edges").isArray = true
    · constructor
      · constructor
        · rintro ⟨msg, herr, hstarts⟩
          exfalso
          cases hl : loadCore emptyMessage toLink response with
          | ok d =>
            rw [hl] at hst
            rw [hst] at herr
            simp at herr
          | error e =>
            have hother := loadCore_error_of_arrays ht hn he hmsg hlink hl
            rw [hl] at hst
            rw [hst] at herr
            simp only [Option.some.injEq] at herr
            rw [orElse_of_ne _ _ hother.1] at herr
            rw [← herr, hother.2] at hstarts
            cases hstarts
        · rintro (h | h | h | h)
          · rw [hmissing _ h] at hn; cases hn
          · rw [h] at hn; cases hn
          · rw [hmissing _ h] at he; cases he
          · rw [h] at he; cases he
      · intro h
        rw [hmissing _ h] at he
        cases he
    · have hl : loadCore emptyMessage toLink response =
          .error (.error "Invalid response format: edges missing or not an array") := by
        unfold loadCore
        simp [ht, hn, he]
      rw [hl] at hst
      have hst' : st =
          ⟨s.data, false, some "Invalid response format: edges missing or not an array"⟩ := by
        rw [hst]; rfl
      refine ⟨⟨fun _ => Or.inr (Or.inr (Or.inr (by simpa using he))),
          fun _ => ⟨"Invalid response format: edges missing or not an array", ?_, by decide⟩⟩,
        fun _ => ⟨"Invalid response format: edges missing or not an array", by decide, hst',
          ?_⟩⟩
      · rw [hst']
      · rw [hst']; rfl
  · have hl : loadCore emptyMessage toLink response =
        .error (.error "Invalid response format: nodes missing or not an array") := by
      unfold loadCore
      simp [ht, hn]
    rw [hl] at hst
    have hst' : st =
          ⟨s.data, false, some "Invalid response format: nodes missing or not an array"⟩ := by
      rw [hst]; rfl
    refine ⟨⟨fun _ => Or.inr (Or.inl (by simpa using hn)),
        fun _ => ⟨"Invalid response format: nodes missing or not an array", ?_, by decide⟩⟩,
      fun _ => ⟨"Invalid response format: nodes missing or not an array", by decide, hst',
        ?_⟩⟩
    · rw [hst']
    · rw [hst']; rfl

theorem CitationNetwork.citation_emptyMessage_otherError (filters : CitationNetwork.Filters) :
    (Thrown.error (CitationNetwork.emptyMessage filters)).otherError := by
  constructor
  · simp only [Thrown.message, CitationNetwork.emptyMessage, String.append_assoc]
    exact append_ne_empty _ _ (by decide)
  · simp [Thrown.message, CitationNetwork.emptyMessage, startsWith, String.data_append,
      List.isPrefixOf]

theorem CollaborationNetwork.collaboration_emptyMessage_otherError
    (filters : CollaborationNetwork.Filters) :
    (Thrown.error (CollaborationNetwork.emptyMessage filters)).otherError := by
  constructor
  · simp only [Thrown.message, CollaborationNetwork.emptyMessage, String.append_assoc]
    exact append_ne_empty _ _ (by decide)
  · simp [Thrown.message, CollaborationNetwork.emptyMessage, startsWith, String.data_append,
      List.isPrefixOf]

/-- C4: for every response that is not empty (truthy), the citation view and the
collaboration view end with an error message starting "Invalid response format" exactly when
the `nodes` field or the `edges` field is missing or is not an array.  In particular a
response without an `edges` field is rejected that way, and the rejection is a message in the
view state: loading is off, the data is untouched and the error panel shows the message. -/
theorem invalid_format_iff_collection_not_array (get : Transport) (s : ViewState)
    (response : AxiosResponse) (ht : response.data.truthy = true) :
    (∀ filters : CitationNetwork.Filters,
      get ⟨"/api/networks/citation",
        apiService.networkParams "min_citations" filters.limit.toJVal filters.minCitations⟩ =
          .ok response →
      ((∃ msg, (CitationNetwork.fetchData get filters s).error = some msg ∧
          startsWith "Invalid response format" msg = true) ↔
        (response.data.ownProp "nodes" = .undefined ∨
          (response.data.ownProp "nodes").isArray = false ∨
          response.data.ownProp "edges" = .undefined ∨
          (response.data.ownProp "edges").isArray = false)) ∧
      (response.data.ownProp "edges" = .undefined →
        ∃ msg, startsWith "Invalid response format" msg = true ∧
          CitationNetwork.fetchData get filters s =
            { data := s.data, loading := false, error := some msg } ∧
          (CitationNetwork.fetchData get filters s).render = .error msg)) ∧
    (∀ filters : CollaborationNetwork.Filters,
      get ⟨"/api/networks/collaboration",
        apiService.networkParams "min_collaborations" filters.limit.toJVal
          filters.minCollaborations⟩ = .ok response →
      ((∃ msg, (CollaborationNetwork.fetchData get filters s).error = some msg ∧
          startsWith "Invalid response format" msg = true) ↔
        (response.data.ownProp "nodes" = .undefined ∨
          (response.data.ownProp "nodes").isArray = false ∨
          response.data.ownProp "edges" = .undefined ∨
          (response.data.ownProp "edges").isArray = false)) ∧
      (response.data.ownProp "edges" = .undefined →
        ∃ msg, startsWith "Invalid response format" msg = true ∧
          CollaborationNetwork.fetchData get filters s =
            { data := s.data, loading := false, error := some msg } ∧
          (CollaborationNetwork.fetchData get filters s).render = .error msg)) :=
  ⟨fun filters hg =>
      format_error_of_outcome ht (CitationNetwork.citation_emptyMessage_otherError filters)
        (fun _ _ h => CitationNetwork.citation_toLink_error h)
        (CitationNetwork.citation_fetchData_of_response s hg),
    fun filters hg =>
      format_error_of_outcome ht (CollaborationNetwork.collaboration_emptyMessage_otherError filters)
        (fun _ _ h => CollaborationNetwork.collaboration_toLink_error h)
        (CollaborationNetwork.collaboration_fetchData_of_response s hg)⟩

/-- C4, at a response that has nodes but no `edges` field: the collaboration view ends with
an "Invalid response format" message in the error panel. -/
theorem invalid_format_iff_collection_not_array_witness :
    ∃ msg, startsWith "Invalid response format" msg = true ∧
      CollaborationNetwork.fetchData (respondWith nodesOnlyBody)
          CollaborationNetwork.Filters.initial ViewState.initial =
        { data := ViewState.initial.data, loading := false, error := some msg } ∧
      (CollaborationNetwork.fetchData (respondWith nodesOnlyBody)
          CollaborationNetwork.Filters.initial ViewState.initial).render = .error msg :=
  ((invalid_format_iff_collection_not_array (respondWith nodesOnlyBody) ViewState.initial
      { data := nodesOnlyBody, status := 200 } (by decide)).2
    CollaborationNetwork.Filters.initial rfl).2 rfl

/-! ## C5: collaboration links -/

theorem JVal.getProp_eq_ok {v a : JVal} {k : String} (h : v.getProp k = .ok a) :
    a = v.ownProp k := by
  cases v <;> simp_all [JVal.getProp]

/-- Filtering the reshaped edges is the same as keeping, edge by edge and in order, the link
of each record that has one. -/
theorem filter_eq_filterMap {toLink : JVal → Except Thrown JVal} {spec : JVal → Option JVal}
    {valid : JVal → Bool}
    (hspec : ∀ e l, toLink e = .ok l → spec e = if valid l then some l else none) :
    ∀ {es mapped : List JVal}, arrayMap toLink es = .ok mapped →
      mapped.filter valid = es.filterMap spec := by
  intro es mapped h
  have hall := arrayMap_forall₂ h
  clear h
  induction hall with
  | nil => rfl
  | cons hxy _ ih =>
    rw [List.filterMap_cons, hspec _ _ hxy, List.filter_cons]
    split <;> simp [ih]

theorem CollaborationNetwork.specLink_of_toLink (ids : List JVal) (e l : JVal)
    (h : CollaborationNetwork.toLink e = .ok l) :
    CollaborationNetwork.specLink ids e = if isValid ids l then some l else none := by
  obtain ⟨a, b, s, t, h1, h2, h3, h4, rfl⟩ := CollaborationNetwork.collaboration_toLink_eq_ok h
  rw [JVal.getProp_eq_ok h1] at h2
  rw [JVal.getProp_eq_ok h3] at h4
  have hsrc : (JVal.obj [("source", .str s), ("target", .str t),
      ("weight", e.ownProp "weight")]).ownProp "source" = .str s := rfl
  have htgt : (JVal.obj [("source", .str s), ("target", .str t),
      ("weight", e.ownProp "weight")]).ownProp "target" = .str t := by
    simp [JVal.ownProp, JVal.lookup]
  simp only [CollaborationNetwork.specLink, h2, h4, isValid, hsrc, htgt]

/-- C5: in the collaboration view, whenever a fetch ends without an error, the link list is
obtained from the response's edge records, in order, by giving each record whose two authors
(in string form) are node identifiers exactly one link with source = string form of
`author1`, target = string form of `author2` and the record's weight unchanged, and no link
to any other record; for the edge `a`-`b` of weight 3 over the nodes `a`, `b` the link list
is exactly the one link from "a" to "b" with weight 3. -/
theorem collaboration_links_keep_authors_and_weight :
    (∀ (get : Transport) (filters : CollaborationNetwork.Filters) (s : ViewState),
      (CollaborationNetwork.fetchData get filters s).error = none →
      ∃ response es,
        get ⟨"/api/networks/collaboration",
          apiService.networkParams "min_collaborations" filters.limit.toJVal
            filters.minCollaborations⟩ = .ok response ∧
        response.data.ownProp "edges" = .arr es ∧
        (CollaborationNetwork.fetchData get filters s).data.links =
          .arr (es.filterMap (CollaborationNetwork.specLink
            ((CollaborationNetwork.fetchData get filters s).data.nodes.elems.map
              (fun n => n.ownProp "id"))))) ∧
    (CollaborationNetwork.fetchData (respondWith sampleCollaborationBody)
        CollaborationNetwork.Filters.initial ViewState.initial).data.links =
      .arr [.obj [("source", .str "a"), ("target", .str "b"), ("weight", .num 3)]] := by
  refine ⟨?_, rfl⟩
  intro get filters s h
  obtain ⟨response, d, hg, hd, hs⟩ := CollaborationNetwork.collaboration_fetchData_ready h
  obtain ⟨_, ns, es, nodes, mapped, _, he, _, _, hl, rfl⟩ :=
    (loadCore_eq_ok_iff _ _ _ _).1 hd
  refine ⟨response, es, hg, he, ?_⟩
  rw [hs]
  simp only [JVal.elems]
  rw [filter_eq_filterMap (CollaborationNetwork.specLink_of_toLink _) hl]

/-- C5, at the sample collaboration response: the fetch is accepted and the link list is the
list of links of the edge records. -/
theorem collaboration_links_keep_authors_and_weight_witness :
    ∃ response es,
      respondWith sampleCollaborationBody ⟨"/api/networks/collaboration",
        apiService.networkParams "min_collaborations"
          CollaborationNetwork.Filters.initial.limit.toJVal
          CollaborationNetwork.Filters.initial.minCollaborations⟩ = .ok response ∧
      response.data.ownProp "edges" = .arr es ∧
      (CollaborationNetwork.fetchData (respondWith sampleCollaborationBody)
          CollaborationNetwork.Filters.initial ViewState.initial).data.links =
        .arr (es.filterMap (CollaborationNetwork.specLink
          ((CollaborationNetwork.fetchData (respondWith sampleCollaborationBody)
            CollaborationNetwork.Filters.initial ViewState.initial).data.nodes.elems.map
              (fun n => n.ownProp "id")))) :=
  collaboration_links_keep_authors_and_weight.1 (respondWith sampleCollaborationBody)
    CollaborationNetwork.Filters.initial ViewState.initial (by decide)

/-! ## C6 and C7: identifiers are compared in string form -/

theorem forall₂_mem_left {α β : Type} {R : α → β → Prop} {xs : List α} {ys : List β}
    (h : List.Forall₂ R xs ys) : ∀ x ∈ xs, ∃ y ∈ ys, R x y := by
  induction h with
  | nil => intro x hx; cases hx
  | cons hxy _ ih =>
    intro x hx
    rcases List.mem_cons.1 hx with rfl | hx'
    · exact ⟨_, List.mem_cons_self _ _, hxy⟩
    · obtain ⟨y, hy, hr⟩ := ih x hx'
      exact ⟨y, List.mem_cons_of_mem _ hy, hr⟩

/-- Accepted data: node identifiers and link endpoints are strings, and a reshaped edge is
among the links exactly when the string forms of both endpoints are node identifiers. -/
theorem loadCore_string_forms {emptyMessage : String} {toLink : JVal → Except Thrown JVal}
    {response : JVal} {d : GraphData}
    (hlink : ∀ e l, toLink e = .ok l →
      ∃ a b, l.ownProp "source" = .str a ∧ l.ownProp "target" = .str b)
    (h : loadCore emptyMessage toLink response = .ok d) :
    (∀ n ∈ d.nodes.elems, ∃ sid, n.ownProp "id" = .str sid) ∧
    (∀ l ∈ d.links.elems, ∃ a b, l.ownProp "source" = .str a ∧ l.ownProp "target" = .str b) ∧
    (∀ e ∈ (response.ownProp "edges").elems, ∃ l a b,
      toLink e = .ok l ∧ l.ownProp "source" = .str a ∧ l.ownProp "target" = .str b ∧
      (l ∈ d.links.elems ↔
        (JVal.str a ∈ d.nodes.elems.map (fun n => n.ownProp "id") ∧
          JVal.str b ∈ d.nodes.elems.map (fun n => n.ownProp "id")))) := by
  obtain ⟨_, ns, es, nodes, mapped, _, he, _, hm, hl, rfl⟩ :=
    (loadCore_eq_ok_iff emptyMessage toLink response d).1 h
  refine ⟨?_, ?_, ?_⟩
  · intro n hn
    obtain ⟨x, _, hx⟩ := arrayMap_mem hm hn
    obtain ⟨_, sid, _, _, _, hid⟩ := normalizeNode_eq_ok hx
    exact ⟨sid, hid⟩
  · intro l hmem
    simp only [JVal.elems, List.mem_filter] at hmem
    obtain ⟨e, _, hle⟩ := arrayMap_mem hl hmem.1
    exact hlink e l hle
  · intro e hmem
    rw [he] at hmem
    obtain ⟨l, hlmem, hle⟩ := forall₂_mem_left (arrayMap_forall₂ hl) e hmem
    obtain ⟨a, b, ha, hb⟩ := hlink e l hle
    refine ⟨l, a, b, hle, ha, hb, ?_⟩
    simp only [JVal.elems, List.mem_filter, isValid, Bool.and_eq_true, ha, hb,
      JVal.setHas_str_iff, hlmem, true_and]

/-- C6: in the citation view and in the collaboration view, whenever a fetch ends without an
error, every node identifier and every link endpoint handed to the renderer is a string, and
the reshaped form of each edge record is among the links exactly when the string forms of its
two endpoints are node identifiers.  An endpoint given as the number 7 matches the node whose
id is the string "7", an endpoint given as the string "8" matches the node whose id is the
number 8, and that edge is kept, in both views. -/
theorem identifiers_compared_as_strings :
    (∀ (get : Transport) (filters : CitationNetwork.Filters) (s : ViewState),
      (CitationNetwork.fetchData get filters s).error = none →
      ∃ response,
        get ⟨"/api/networks/citation",
          apiService.networkParams "min_citations" filters.limit.toJVal
            filters.minCitations⟩ = .ok response ∧
        (∀ n ∈ (CitationNetwork.fetchData get filters s).data.nodes.elems,
          ∃ sid, n.ownProp "id" = .str sid) ∧
        (∀ l ∈ (CitationNetwork.fetchData get filters s).data.links.elems,
          ∃ a b, l.ownProp "source" = .str a ∧ l.ownProp "target" = .str b) ∧
        (∀ e ∈ (response.data.ownProp "edges").elems, ∃ l a b,
          CitationNetwork.toLink e = .ok l ∧
          l.ownProp "source" = .str a ∧ l.ownProp "target" = .str b ∧
          (l ∈ (CitationNetwork.fetchData get filters s).data.links.elems ↔
            (JVal.str a ∈ (CitationNetwork.fetchData get filters s).data.nodes.elems.map
                (fun n => n.ownProp "id") ∧
              JVal.str b ∈ (CitationNetwork.fetchData get filters s).data.nodes.elems.map
                (fun n => n.ownProp "id"))))) ∧
    (∀ (get : Transport) (filters : CollaborationNetwork.Filters) (s : ViewState),
      (CollaborationNetwork.fetchData get filters s).error = none →
      ∃ response,
        get ⟨"/api/networks/collaboration",
          apiService.networkParams "min_collaborations" filters.limit.toJVal
            filters.minCollaborations⟩ = .ok response ∧
        (∀ n ∈ (CollaborationNetwork.fetchData get filters s).data.nodes.elems,
          ∃ sid, n.ownProp "id" = .str sid) ∧
        (∀ l ∈ (CollaborationNetwork.fetchData get filters s).data.links.elems,
          ∃ a b, l.ownProp "source" = .str a ∧ l.ownProp "target" = .str b) ∧
        (∀ e ∈ (response.data.ownProp "edges").elems, ∃ l a b,
          CollaborationNetwork.toLink e = .ok l ∧
          l.ownProp "source" = .str a ∧ l.ownProp "target" = .str b ∧
          (l ∈ (CollaborationNetwork.fetchData get filters s).data.links.elems ↔
            (JVal.str a ∈ (CollaborationNetwork.fetchData get filters s).data.nodes.elems.map
                (fun n => n.ownProp "id") ∧
              JVal.str b ∈ (CollaborationNetwork.fetchData get filters s).data.nodes.elems.map
                (fun n => n.ownProp "id"))))) ∧
    (CitationNetwork.fetchData (respondWith mixedIdsCitationBody)
        CitationNetwork.Filters.initial ViewState.initial).data.nodes =
      .arr [.obj [("id", .str "7")], .obj [("id", .str "8")]] ∧
    (CitationNetwork.fetchData (respondWith mixedIdsCitationBody)
        CitationNetwork.Filters.initial ViewState.initial).data.links =
      .arr [.obj [("source", .str "7"), ("target", .str "8")]] ∧
    (CollaborationNetwork.fetchData (respondWith mixedIdsCollaborationBody)
        CollaborationNetwork.Filters.initial ViewState.initial).data.nodes =
      .arr [.obj [("id", .str "7")], .obj [("id", .str "8")]] ∧
    (CollaborationNetwork.fetchData (respondWith mixedIdsCollaborationBody)
        CollaborationNetwork.Filters.initial ViewState.initial).data.links =
      .arr [.obj [("source", .str "7"), ("target", .str "8"), ("weight", .num 2)]] := by
  refine ⟨?_, ?_, rfl, rfl, rfl, rfl⟩
  · intro get filters s h
    obtain ⟨response, d, hg, hd, hs⟩ := CitationNetwork.citation_fetchData_ready h
    rw [hs]
    exact ⟨response, hg, loadCore_string_forms CitationNetwork.citation_toLink_endpoints hd⟩
  · intro get filters s h
    obtain ⟨response, d, hg, hd, hs⟩ := CollaborationNetwork.collaboration_fetchData_ready h
    rw [hs]
    exact ⟨response, hg, loadCore_string_forms CollaborationNetwork.collaboration_toLink_endpoints hd⟩

/-- C6, at the citation response with mixed numbers and strings: the fetch is accepted, so
all identifiers handed over are strings. -/
theorem identifiers_compared_as_strings_witness :
    ∃ response,
      respondWith mixedIdsCitationBody ⟨"/api/networks/citation",
        apiService.networkParams "min_citations" CitationNetwork.Filters.initial.limit.toJVal
          CitationNetwork.Filters.initial.minCitations⟩ = .ok response ∧
      (∀ n ∈ (CitationNetwork.fetchData (respondWith mixedIdsCitationBody)
            CitationNetwork.Filters.initial ViewState.initial).data.nodes.elems,
        ∃ sid, n.ownProp "id" = .str sid) ∧
      (∀ l ∈ (CitationNetwork.fetchData (respondWith mixedIdsCitationBody)
            CitationNetwork.Filters.initial ViewState.initial).data.links.elems,
        ∃ a b, l.ownProp "source" = .str a ∧ l.ownProp "target" = .str b) ∧
      (∀ e ∈ (response.data.ownProp "edges").elems, ∃ l a b,
        CitationNetwork.toLink e = .ok l ∧
        l.ownProp "source" = .str a ∧ l.ownProp "target" = .str b ∧
        (l ∈ (CitationNetwork.fetchData (respondWith mixedIdsCitationBody)
            CitationNetwork.Filters.initial ViewState.initial).data.links.elems ↔
          (JVal.str a ∈ (CitationNetwork.fetchData (respondWith mixedIdsCitationBody)
              CitationNetwork.Filters.initial ViewState.initial).data.nodes.elems.map
                (fun n => n.ownProp "id") ∧
            JVal.str b ∈ (CitationNetwork.fetchData (respondWith mixedIdsCitationBody)
              CitationNetwork.Filters.initial ViewState.initial).data.nodes.elems.map
                (fun n => n.ownProp "id")))) :=
  identifiers_compared_as_strings.1 (respondWith mixedIdsCitationBody)
    CitationNetwork.Filters.initial ViewState.initial (by decide)

/-- The mapping of the two network operations for a payload that is not `null`: the payload's
error text when it is a non-empty string, the status code when the payload has no `error`
property, the connectivity message when no response came, the failure's own message or
"Unknown error occurred" otherwise. -/
theorem apiService.rethrow_mapping (error : AxiosError) :
    (∀ r text, error.response = some r → r.data.ownProp "error" = .str text →
      text ≠ "" → rethrow error = .error text) ∧
    (∀ r, error.response = some r → r.data ≠ .null → r.data ≠ .undefined →
      r.data.ownProp "error" = .undefined →
      rethrow error = .error ("Server error: " ++ toString r.status)) ∧
    (error.response = none → error.request = true →
      rethrow error = .error "Cannot connect to server. Is the backend running?") ∧
    (error.response = none → error.request = false →
      rethrow error = .error (orElse error.message "Unknown error occurred")) := by
  refine ⟨?_, ?_, ?_, ?_⟩
  · intro r text hr htext hne
    have hdata : r.data.getProp "error" = .ok (.str text) := by
      cases hd : r.data <;> simp_all [JVal.getProp, JVal.ownProp]
    simp [rethrow, hr, hdata, JVal.truthy, JVal.toStr, hne]
  · intro r hr hnull hundef herr
    have hdata : r.data.getProp "error" = .ok .undefined := by
      cases hd : r.data <;> simp_all [JVal.getProp, JVal.ownProp]
    simp [rethrow, hr, hdata, JVal.truthy]
  · intro hr hreq
    simp [rethrow, hr, hreq]
  · intro hr hreq
    simp [rethrow, hr, hreq]

/-- C8 (failing input): for an error response whose payload is `null` both network operations
throw the engine's `TypeError` for reading `error` of `null`; the message is neither the
payload's error text nor "Server error: 500". -/
theorem null_payload_escapes_mapping :
    apiService.getCitationNetwork (failWith nullPayloadFailure) (.num 100) (.int 0) =
      .error (.typeError "Cannot read properties of null (reading 'error')") ∧
    apiService.getCollaborationNetwork (failWith nullPayloadFailure) (.num 50) (.int 1) =
      .error (.typeError "Cannot read properties of null (reading 'error')") ∧
    (Thrown.typeError "Cannot read properties of null (reading 'error')").message ≠
      "Server error: " ++ toString (500 : Int) :=
  ⟨rfl, rfl, by decide⟩

/-- C9 (failing input): when no response comes back, `getStats`, `healthCheck`,
`getTimeline` and `getPaperDetails` pass the axios failure on as it is, with the message
"Network Error", while `getCitationNetwork` maps the same failure to the connectivity
message. -/
theorem unmapped_operations_pass_raw_failure :
    apiService.getStats (failWith networkFailure) = .error (.axios networkFailure) ∧
    apiService.healthCheck (failWith networkFailure) = .error (.axios networkFailure) ∧
    apiService.getTimeline (failWith networkFailure) = .error (.axios networkFailure) ∧
    apiService.getPaperDetails (failWith networkFailure) "p1" =
      .error (.axios networkFailure) ∧
    (Thrown.axios networkFailure).message = "Network Error" ∧
    apiService.getCitationNetwork (failWith networkFailure) (.num 100) (.int 0) =
      .error (.error "Cannot connect to server. Is the backend running?") :=
  ⟨rfl, rfl, rfl, rfl, rfl, rfl⟩

/-! ## C10: the error panel -/

theorem orElse_ne_empty (m fallback : String) (hf : fallback ≠ "") : orElse m fallback ≠ "" := by
  unfold orElse
  split
  · exact hf
  · assumption

/-- The two network views end every fetch with loading off, and either without an error or
with a non-empty message that the error panel shows. -/
theorem network_views_show_every_error (get : Transport) (s : ViewState) :
    (∀ filters : CitationNetwork.Filters,
      (CitationNetwork.fetchData get filters s).loading = false ∧
      ((CitationNetwork.fetchData get filters s).error = none ∨
        ∃ m, m ≠ "" ∧ (CitationNetwork.fetchData get filters s).error = some m ∧
          (CitationNetwork.fetchData get filters s).render = .error m)) ∧
    (∀ filters : CollaborationNetwork.Filters,
      (CollaborationNetwork.fetchData get filters s).loading = false ∧
      ((CollaborationNetwork.fetchData get filters s).error = none ∨
        ∃ m, m ≠ "" ∧ (CollaborationNetwork.fetchData get filters s).error = some m ∧
          (CollaborationNetwork.fetchData get filters s).render = .error m)) := by
  constructor
  · intro filters
    unfold CitationNetwork.fetchData
    cases apiService.getCitationNetwork get filters.limit.toJVal filters.minCitations >>=
        CitationNetwork.loadData filters with
    | ok d => exact ⟨rfl, Or.inl rfl⟩
    | error e =>
      exact ⟨rfl, Or.inr ⟨_, orElse_ne_empty _ _ (by decide), rfl,
        ViewState.render_error _ _ (orElse_ne_empty _ _ (by decide))⟩⟩
  · intro filters
    unfold CollaborationNetwork.fetchData
    cases apiService.getCollaborationNetwork get filters.limit.toJVal
        filters.minCollaborations >>= CollaborationNetwork.loadData filters with
    | ok d => exact ⟨rfl, Or.inl rfl⟩
    | error e =>
      exact ⟨rfl, Or.inr ⟨_, orElse_ne_empty _ _ (by decide), rfl,
        ViewState.render_error _ _ (orElse_ne_empty _ _ (by decide))⟩⟩

theorem setHas_str_eq_isIdentifier (ids : List JVal) (s : String) :
    JVal.setHas ids (.str s) = isIdentifier ids s := by
  unfold JVal.setHas isIdentifier
  congr 1
  funext x
  cases x <;> simp [JVal.sameValueZero]

theorem isValid_eq_endpointsKnown (ids : List JVal) {l : JVal} {a b : String}
    (ha : l.ownProp "source" = .str a) (hb : l.ownProp "target" = .str b) :
    isValid ids l = endpointsKnown ids l := by
  simp only [isValid, endpointsKnown, ha, hb, setHas_str_eq_isIdentifier]

/-- When every record is reshaped, the reshaped list is the list of normalized forms. -/
theorem filterMap_eq_of_arrayMap {toLink : JVal → Except Thrown JVal}
    {normalized : JVal → Option JVal}
    (hnorm : ∀ e l, toLink e = .ok l → normalized e = some l) :
    ∀ {es mapped : List JVal}, arrayMap toLink es = .ok mapped →
      es.filterMap normalized = mapped := by
  intro es mapped h
  have hall := arrayMap_forall₂ h
  clear h
  induction hall with
  | nil => rfl
  | cons hxy _ ih => rw [List.filterMap_cons, hnorm _ _ hxy, ih]

theorem CitationNetwork.citation_normalizedEdge_of_toLink (e l : JVal)
    (h : CitationNetwork.toLink e = .ok l) : CitationNetwork.normalizedEdge e = some l := by
  obtain ⟨a, b, s, t, h1, h2, h3, h4, rfl⟩ := CitationNetwork.citation_toLink_eq_ok h
  rw [JVal.getProp_eq_ok h1] at h2
  rw [JVal.getProp_eq_ok h3] at h4
  simp only [CitationNetwork.normalizedEdge, h2, h4]

theorem CollaborationNetwork.collaboration_normalizedEdge_of_toLink (e l : JVal)
    (h : CollaborationNetwork.toLink e = .ok l) :
    CollaborationNetwork.normalizedEdge e = some l := by
  obtain ⟨a, b, s, t, h1, h2, h3, h4, rfl⟩ :=
    CollaborationNetwork.collaboration_toLink_eq_ok h
  rw [JVal.getProp_eq_ok h1] at h2
  rw [JVal.getProp_eq_ok h3] at h4
  simp only [CollaborationNetwork.normalizedEdge, h2, h4]

/-- Accepted data: the links are the normalized edges, one per record, filtered in place by
"both endpoints are node identifiers". -/
theorem loadCore_links_subsequence {emptyMessage : String}
    {toLink : JVal → Except Thrown JVal} {normalized : JVal → Option JVal}
    {response : JVal} {d : GraphData}
    (hnorm : ∀ e l, toLink e = .ok l → normalized e = some l)
    (hlink : ∀ e l, toLink e = .ok l →
      ∃ a b, l.ownProp "source" = .str a ∧ l.ownProp "target" = .str b)
    (h : loadCore emptyMessage toLink response = .ok d) :
    ((response.ownProp "edges").elems.filterMap normalized).length =
      (response.ownProp "edges").elems.length ∧
    d.links = .arr (((response.ownProp "edges").elems.filterMap normalized).filter
      (endpointsKnown (d.nodes.elems.map (fun n => n.ownProp "id")))) := by
  obtain ⟨_, ns, es, nodes, mapped, _, he, _, _, hl, rfl⟩ :=
    (loadCore_eq_ok_iff emptyMessage toLink response d).1 h
  rw [he]
  simp only [JVal.elems]
  rw [filterMap_eq_of_arrayMap hnorm hl]
  refine ⟨arrayMap_length hl, ?_⟩
  congr 1
  apply List.filter_congr
  intro l hmem
  obtain ⟨e, _, hle⟩ := arrayMap_mem hl hmem
  obtain ⟨a, b, ha, hb⟩ := hlink e l hle
  exact isValid_eq_endpointsKnown _ ha hb

/-- C18: in the citation view and in the collaboration view, whenever a fetch ends without an
error, every edge record of the response has a normalized form, and the link list handed to
the renderer is the list of these normalized forms, in the order of the response and with
repetitions, restricted to those whose two endpoints are both node identifiers: no valid edge
is dropped, no link is invented, none is moved.  For the edges p-q, p-x, p-q, q-p over the
nodes p and q the links are p-q, p-q, q-p. -/
theorem links_are_valid_edges_in_order :
    (∀ (get : Transport) (filters : CitationNetwork.Filters) (s : ViewState),
      (CitationNetwork.fetchData get filters s).error = none →
      ∃ response,
        get ⟨"/api/networks/citation",
          apiService.networkParams "min_citations" filters.limit.toJVal
            filters.minCitations⟩ = .ok response ∧
        ((response.data.ownProp "edges").elems.filterMap
            CitationNetwork.normalizedEdge).length =
          (response.data.ownProp "edges").elems.length ∧
        (CitationNetwork.fetchData get filters s).data.links =
          .arr (((response.data.ownProp "edges").elems.filterMap
              CitationNetwork.normalizedEdge).filter
            (endpointsKnown ((CitationNetwork.fetchData get filters s).data.nodes.elems.map
              (fun n => n.ownProp "id"))))) ∧
    (∀ (get : Transport) (filters : CollaborationNetwork.Filters) (s : ViewState),
      (CollaborationNetwork.fetchData get filters s).error = none →
      ∃ response,
        get ⟨"/api/networks/collaboration",
          apiService.networkParams "min_collaborations" filters.limit.toJVal
            filters.minCollaborations⟩ = .ok response ∧
        ((response.data.ownProp "edges").elems.filterMap
            CollaborationNetwork.normalizedEdge).length =
          (response.data.ownProp "edges").elems.length ∧
        (CollaborationNetwork.fetchData get filters s).data.links =
          .arr (((response.data.ownProp "edges").elems.filterMap
              CollaborationNetwork.normalizedEdge).filter
            (endpointsKnown
              ((CollaborationNetwork.fetchData get filters s).data.nodes.elems.map
                (fun n => n.ownProp "id"))))) ∧
    (CitationNetwork.fetchData (respondWith repeatedEdgesBody)
        CitationNetwork.Filters.initial ViewState.initial).data.links =
      .arr [.obj [("source", .str "p"), ("target", .str "q")],
            .obj [("source", .str "p"), ("target", .str "q")],
            .obj [("source", .str "q"), ("target", .str "p")]] := by
  refine ⟨?_, ?_, rfl⟩
  · intro get filters s h
    obtain ⟨response, d, hg, hd, hs⟩ := CitationNetwork.citation_fetchData_ready h
    rw [hs]
    exact ⟨response, hg, loadCore_links_subsequence CitationNetwork.citation_normalizedEdge_of_toLink
      CitationNetwork.citation_toLink_endpoints hd⟩
  · intro get filters s h
    obtain ⟨response, d, hg, hd, hs⟩ := CollaborationNetwork.collaboration_fetchData_ready h
    rw [hs]
    exact ⟨response, hg,
      loadCore_links_subsequence CollaborationNetwork.collaboration_normalizedEdge_of_toLink
        CollaborationNetwork.collaboration_toLink_endpoints hd⟩

/-- C18, at the citation response with a repeated edge: the fetch is accepted, so the links
are the valid normalized edges in order. -/
theorem links_are_valid_edges_in_order_witness :
    ∃ response,
      respondWith repeatedEdgesBody ⟨"/api/networks/citation",
        apiService.networkParams "min_citations" CitationNetwork.Filters.initial.limit.toJVal
          CitationNetwork.Filters.initial.minCitations⟩ = .ok response ∧
      ((response.data.ownProp "edges").elems.filterMap
          CitationNetwork.normalizedEdge).length =
        (response.data.ownProp "edges").elems.length ∧
      (CitationNetwork.fetchData (respondWith repeatedEdgesBody)
          CitationNetwork.Filters.initial ViewState.initial).data.links =
        .arr (((response.data.ownProp "edges").elems.filterMap
            CitationNetwork.normalizedEdge).filter
          (endpointsKnown ((CitationNetwork.fetchData (respondWith repeatedEdgesBody)
            CitationNetwork.Filters.initial ViewState.initial).data.nodes.elems.map
              (fun n => n.ownProp "id")))) :=
  links_are_valid_edges_in_order.1 (respondWith repeatedEdgesBody)
    CitationNetwork.Filters.initial ViewState.initial (by decide)

/-! ## C20: query parameters of the network operations -/

/-- C13: for every statistics object the dashboard holds and every selected year, also none,
`getFilteredStats` returns that statistics object itself; selecting a year through the
timeline's callback leaves the statistics object and the result of `getFilteredStats` as
they were. -/
theorem filtered_stats_are_the_fetched_stats :
    (∀ s : Dashboard.State, Dashboard.getFilteredStats s = s.stats) ∧
    (∀ (s : Dashboard.State) (year : JVal),
      (Dashboard.handleYearSelect year s).stats = s.stats ∧
      Dashboard.getFilteredStats (Dashboard.handleYearSelect year s) =
        Dashboard.getFilteredStats s) := by
  have h : ∀ s : Dashboard.State, Dashboard.getFilteredStats s = s.stats := by
    intro s
    unfold Dashboard.getFilteredStats
    split <;> rfl
  exact ⟨h, fun s year => ⟨rfl, by rw [h, h]; rfl⟩⟩

/-! ## C19: node colours of the citation view -/

theorem CitationNetwork.getNodeColor_of_year (node : JVal) (y : Int)
    (h : node.ownProp "year" = .num y) :
    CitationNetwork.getNodeColor node =
      if 2024 ≤ y then "#e74c3c"
      else if 2023 ≤ y then "#f39c12"
      else if 2022 ≤ y then "#f1c40f"
      else if 2021 ≤ y then "#2ecc71"
      else "#3498db" := by
  simp only [CitationNetwork.getNodeColor, h, JVal.geInt, JVal.toNumber, decide_eq_true_eq]

theorem CitationNetwork.getNodeColor_cases (node : JVal) :
    CitationNetwork.getNodeColor node = "#e74c3c" ∨
    CitationNetwork.getNodeColor node = "#f39c12" ∨
    CitationNetwork.getNodeColor node = "#f1c40f" ∨
    CitationNetwork.getNodeColor node = "#2ecc71" ∨
    CitationNetwork.getNodeColor node = "#3498db" := by
  unfold CitationNetwork.getNodeColor
  simp only
  split
  · exact Or.inl rfl
  · split
    · exact Or.inr (Or.inl rfl)
    · split
      · exact Or.inr (Or.inr (Or.inl rfl))
      · split
        · exact Or.inr (Or.inr (Or.inr (Or.inl rfl)))
        · exact Or.inr (Or.inr (Or.inr (Or.inr rfl)))

/-- C19: `getNodeColor` agrees with the legend of the citation view: a node whose year is
2024, 2023, 2022, 2021 or 2020 gets the colour the legend shows for that year.  It is total:
every node, also one without a year, gets one of the five legend colours (a node without a
year gets the colour of the 2020 entry; a year after 2024 gets the colour of the 2024 entry, a
year before 2020 that of the 2020 entry).  And it is monotone in the year: of two nodes the
one with the later year never gets a colour whose legend entry is earlier than the legend
entry of the other node's colour. -/
theorem node_colour_agrees_with_legend :
    (∀ node : JVal, ∀ entry ∈ CitationNetwork.legend,
      node.ownProp "year" = .num entry.2 → CitationNetwork.getNodeColor node = entry.1) ∧
    (∀ node : JVal,
      CitationNetwork.getNodeColor node ∈ CitationNetwork.legend.map (fun entry => entry.1)) ∧
    (∀ node : JVal, node.ownProp "year" = .undefined →
      CitationNetwork.getNodeColor node = "#3498db") ∧
    (∀ (node : JVal) (y : Int), node.ownProp "year" = .num y →
      (2024 ≤ y → CitationNetwork.getNodeColor node = "#e74c3c") ∧
      (y ≤ 2020 → CitationNetwork.getNodeColor node = "#3498db")) ∧
    (∀ (n₁ n₂ : JVal) (y₁ y₂ : Int),
      n₁.ownProp "year" = .num y₁ → n₂.ownProp "year" = .num y₂ → y₁ ≤ y₂ →
      CitationNetwork.legendYear (CitationNetwork.getNodeColor n₁) ≤
        CitationNetwork.legendYear (CitationNetwork.getNodeColor n₂)) := by
  refine ⟨?_, ?_, ?_, ?_, ?_⟩
  · intro node entry hentry hyear
    rw [CitationNetwork.getNodeColor_of_year node entry.2 hyear]
    simp only [CitationNetwork.legend, List.mem_cons, List.mem_singleton,
      List.not_mem_nil, or_false] at hentry
    rcases hentry with h | h | h | h | h <;> rw [h] <;> decide
  · intro node
    rcases CitationNetwork.getNodeColor_cases node with h | h | h | h | h <;> rw [h] <;>
      decide
  · intro node h
    simp [CitationNetwork.getNodeColor, h, JVal.geInt, JVal.toNumber]
  · intro node y hyear
    rw [CitationNetwork.getNodeColor_of_year node y hyear]
    constructor
    · intro h
      simp [h]
    · intro h
      have h1 : ¬ 2024 ≤ y := by omega
      have h2 : ¬ 2023 ≤ y := by omega
      have h3 : ¬ 2022 ≤ y := by omega
      have h4 : ¬ 2021 ≤ y := by omega
      simp [h1, h2, h3, h4]
  · intro n₁ n₂ y₁ y₂ h₁ h₂ hle
    rw [CitationNetwork.getNodeColor_of_year n₁ y₁ h₁,
      CitationNetwork.getNodeColor_of_year n₂ y₂ h₂]
    by_cases a1 : 2024 ≤ y₁ <;> by_cases a2 : 2023 ≤ y₁ <;> by_cases a3 : 2022 ≤ y₁ <;>
      by_cases a4 : 2021 ≤ y₁ <;> by_cases b1 : 2024 ≤ y₂ <;> by_cases b2 : 2023 ≤ y₂ <;>
      by_cases b3 : 2022 ≤ y₂ <;> by_cases b4 : 2021 ≤ y₂ <;>
      simp only [a1, a2, a3, a4, b1, b2, b3, b4, if_true, if_false] <;>
      first
        | decide
        | (exfalso; omega)

/-- C19, at nodes of the years 2021 and 2023: their colours are the legend's. -/
theorem node_colour_agrees_with_legend_witness :
    CitationNetwork.getNodeColor (.obj [("id", .str "a"), ("year", .num 2023)]) =
      "#f39c12" ∧
    CitationNetwork.legendYear
        (CitationNetwork.getNodeColor (.obj [("id", .str "b"), ("year", .num 2021)])) ≤
      CitationNetwork.legendYear
        (CitationNetwork.getNodeColor (.obj [("id", .str "a"), ("year", .num 2023)])) :=
  ⟨node_colour_agrees_with_legend.1 (.obj [("id", .str "a"), ("year", .num 2023)])
      ("#f39c12", 2023) (by decide) rfl,
    node_colour_agrees_with_legend.2.2.2.2 (.obj [("id", .str "b"), ("year", .num 2021)])
      (.obj [("id", .str "a"), ("year", .num 2023)]) 2021 2023 rfl rfl (by decide)⟩

/-! ## C12: selecting and clearing a year on the timeline -/

theorem Timeline.bars_mem_getProp {s : Timeline.State} {ds : List JVal}
    (h : Timeline.bars s = .ok ds) : ∀ d ∈ ds, d.getProp "year" = .ok (d.ownProp "year") := by
  unfold Timeline.bars at h
  split at h
  · simp only [Except.ok.injEq] at h
    subst h
    intro d hd
    cases hd
  · split at h
    · rename_i series hseries
      cases hy : arrayMap (fun d => JVal.getProp d "year") series with
      | error e => simp [hy] at h
      | ok ys =>
        cases hc : arrayMap (fun d => JVal.getProp d "count") series with
        | error e => simp [hy, hc] at h
        | ok cs =>
          simp only [hy, hc, Except.ok.injEq] at h
          subst h
          intro d hd
          obtain ⟨y, _, hdy⟩ := forall₂_mem_left (arrayMap_forall₂ hy) d hd
          rw [hdy, JVal.getProp_eq_ok hdy]
    · simp at h

/-- C12: for every state of the timeline and every bar drawn in it, clicking the bar sets the
selected year to the bar's year and calls the selection callback once, with that year (with
no callback supplied the selection is set and nothing is called); the clear action sets the
selected year to `null` and calls the callback once, with `null`.  For the series 2020: 5,
2021: 12 the bars are these two records, clicking the 2021 bar calls the callback with 2021,
the "Clear Selection" button is then shown, and clearing calls the callback with `null`. -/
theorem timeline_click_selects_and_clear_resets :
    (∀ (r : Timeline.Run) (ds : List JVal), Timeline.bars r.state = .ok ds → ∀ d ∈ ds,
      Timeline.clickBar true d r =
        .ok { state := { r.state with selectedYear := d.ownProp "year" },
              selected := r.selected ++ [d.ownProp "year"] } ∧
      Timeline.clickBar false d r =
        .ok { state := { r.state with selectedYear := d.ownProp "year" },
              selected := r.selected }) ∧
    (∀ r : Timeline.Run,
      Timeline.clickClear true r =
        { state := { r.state with selectedYear := .null },
          selected := r.selected ++ [.null] } ∧
      Timeline.clickClear false r =
        { state := { r.state with selectedYear := .null }, selected := r.selected }) ∧
    Timeline.bars sampleTimelineRun.state =
      .ok [.obj [("year", .num 2020), ("count", .num 5)],
           .obj [("year", .num 2021), ("count", .num 12)]] ∧
    Timeline.clickBar true (.obj [("year", .num 2021), ("count", .num 12)])
        sampleTimelineRun =
      .ok { state := { sampleTimelineRun.state with selectedYear := .num 2021 },
            selected := [.num 2021] } ∧
    Timeline.clearShown { sampleTimelineRun.state with selectedYear := .num 2021 } = true ∧
    Timeline.clickClear true
        { state := { sampleTimelineRun.state with selectedYear := .num 2021 },
          selected := [.num 2021] } =
      { state := { sampleTimelineRun.state with selectedYear := .null },
        selected := [.num 2021, .null] } := by
  refine ⟨?_, fun r => ⟨rfl, rfl⟩, rfl, rfl, by decide, rfl⟩
  intro r ds hbars d hd
  have hyear := Timeline.bars_mem_getProp hbars d hd
  simp [Timeline.clickBar, hyear]

/-- C12, at the timeline of the example: the 2021 record is one of its bars, and clicking it
records one call with 2021. -/
theorem timeline_click_selects_and_clear_resets_witness :
    Timeline.clickBar true (.obj [("year", .num 2021), ("count", .num 12)])
        sampleTimelineRun =
      .ok { state := { sampleTimelineRun.state with
                       selectedYear := (JVal.obj [("year", .num 2021),
                         ("count", .num 12)]).ownProp "year" },
            selected := sampleTimelineRun.selected ++
              [(JVal.obj [("year", .num 2021), ("count", .num 12)]).ownProp "year"] } ∧
    Timeline.clickBar false (.obj [("year", .num 2021), ("count", .num 12)])
        sampleTimelineRun =
      .ok { state := { sampleTimelineRun.state with
                       selectedYear := (JVal.obj [("year", .num 2021),
                         ("count", .num 12)]).ownProp "year" },
            selected := sampleTimelineRun.selected } :=
  timeline_click_selects_and_clear_resets.1 sampleTimelineRun
    [.obj [("year", .num 2020), ("count", .num 5)],
     .obj [("year", .num 2021), ("count", .num 12)]]
    rfl (.obj [("year", .num 2021), ("count", .num 12)])
    (List.mem_cons_of_mem _ (List.mem_cons_self _ _))

/-! ## C11: a filter change fetches once, with the new values -/

/-- C14: a render with an empty node list returns at once, whatever the other properties and
whatever the surface holds: the surface after the render is the surface before it (same
drawing, no simulation created, running state untouched), and nothing is thrown. -/
theorem empty_render_is_noop (p : NetworkGraph.Props) (s : NetworkGraph.Surface)
    (h : p.nodes = []) : NetworkGraph.renderEffect p s = .ok s := by
  simp [NetworkGraph.renderEffect, h]

/-- C14, on a surface that holds the drawing of an earlier render: the render with no nodes
but with links and callbacks leaves it as it is. -/
theorem empty_render_is_noop_witness :
    NetworkGraph.renderEffect
        (NetworkGraph.sampleProps [] [[("source", .str "a"), ("target", .str "b")]])
        { attached := true,
          scene := some { width := 1000, height := 700, marker := true, lines := [],
                          circles := [NetworkGraph.circleOf (NetworkGraph.sampleProps [] [])
                            [("id", .str "a")]],
                          labels := none },
          simulations := 1, running := true } =
      .ok { attached := true,
            scene := some { width := 1000, height := 700, marker := true, lines := [],
                            circles := [NetworkGraph.circleOf (NetworkGraph.sampleProps [] [])
                              [("id", .str "a")]],
                            labels := none },
            simulations := 1, running := true } :=
  empty_render_is_noop _ _ rfl

theorem NetworkGraph.dataJoin_nil {ε δ : Type} (data : List δ) (update : ε → δ → ε)
    (enter : δ → ε) : NetworkGraph.dataJoin [] data update enter = data.map enter := by
  simp [NetworkGraph.dataJoin]

theorem NetworkGraph.labelsOf_isSome (p : NetworkGraph.Props) :
    (NetworkGraph.labelsOf p).isSome = true ↔
      (p.nodes.length < 50 ∧ p.getNodeLabel.isSome = true) := by
  unfold NetworkGraph.labelsOf
  by_cases hlen : p.nodes.length < 50
  · cases hcb : p.getNodeLabel <;> simp [hlen]
  · simp [hlen]

theorem NetworkGraph.labelsOf_eq_some {p : NetworkGraph.Props} {ls : List NetworkGraph.Label}
    (h : NetworkGraph.labelsOf p = some ls) :
    ls.length = p.nodes.length ∧ ls.map (fun l => l.datum) = p.nodes := by
  unfold NetworkGraph.labelsOf at h
  split at h
  · cases hcb : p.getNodeLabel with
    | none => simp [hcb] at h
    | some label =>
      simp only [hcb, Option.some.injEq] at h
      subst h
      simp only [NetworkGraph.dataJoin_nil, List.length_map, List.map_map, true_and]
      exact List.map_id _
  · cases h

theorem NetworkGraph.renderEffect_scene {p : NetworkGraph.Props}
    {s s' : NetworkGraph.Surface} (h : NetworkGraph.renderEffect p s = .ok s')
    (hattached : s.attached = true) (hnodes : p.nodes ≠ []) :
    ∃ resolved,
      arrayMap (NetworkGraph.resolveLink p.nodes) p.links = .ok resolved ∧
      s'.scene = some
        { width := p.width, height := p.height, marker := p.directed,
          lines := resolved.map (NetworkGraph.lineOf p),
          circles := p.nodes.map (NetworkGraph.circleOf p),
          labels := NetworkGraph.labelsOf p } := by
  have hlen : ¬ ((p.nodes.length == 0) = true) := by
    cases hp : p.nodes with
    | nil => exact absurd hp hnodes
    | cons a as => simp
  unfold NetworkGraph.renderEffect at h
  simp only [hlen, hattached, Bool.not_true, Bool.or_self, Bool.false_eq_true, if_false] at h
  cases hr : arrayMap (NetworkGraph.resolveLink p.nodes) p.links with
  | error e => simp [hr] at h
  | ok resolved =>
    simp only [hr, Except.ok.injEq] at h
    subst h
    exact ⟨resolved, rfl, by simp [NetworkGraph.dataJoin_nil]⟩

/-- C16: the labels group of a render exists exactly when the node list has fewer than 50
nodes and a label callback was supplied, and then it holds one label per node, in order; no
other property enters the test.  Every render that draws has exactly these labels, and a tick
neither adds nor removes them.  With 49 nodes and a callback there are 49 labels, with 50
nodes there is no labels group. -/
theorem labels_exactly_below_fifty_nodes :
    (∀ p : NetworkGraph.Props,
      ((NetworkGraph.labelsOf p).isSome = true ↔
        (p.nodes.length < 50 ∧ p.getNodeLabel.isSome = true)) ∧
      (∀ ls, NetworkGraph.labelsOf p = some ls →
        ls.length = p.nodes.length ∧ ls.map (fun l => l.datum) = p.nodes)) ∧
    (∀ (p : NetworkGraph.Props) (s s' : NetworkGraph.Surface),
      NetworkGraph.renderEffect p s = .ok s' → s.attached = true → p.nodes ≠ [] →
      ∃ scene, s'.scene = some scene ∧ scene.labels = NetworkGraph.labelsOf p ∧
        ∀ (layout : Nat → JVal × JVal) (scene' : NetworkGraph.Scene),
          NetworkGraph.tick layout scene = .ok scene' →
          scene'.labels.isSome = scene.labels.isSome ∧
          ∀ ls', scene'.labels = some ls' → ls'.length = p.nodes.length) ∧
    (match NetworkGraph.renderEffect
        (NetworkGraph.sampleProps (List.replicate 49 [("id", .str "n")]) [])
        NetworkGraph.Surface.empty with
      | .ok s' => (s'.scene.bind (fun scene => scene.labels)).map List.length
      | .error _ => none) = some 49 ∧
    (match NetworkGraph.renderEffect
        (NetworkGraph.sampleProps (List.replicate 50 [("id", .str "n")]) [])
        NetworkGraph.Surface.empty with
      | .ok s' => s'.scene.map (fun scene => scene.labels.isSome)
      | .error _ => none) = some false := by
  refine ⟨fun p => ⟨NetworkGraph.labelsOf_isSome p, fun ls h =>
    NetworkGraph.labelsOf_eq_some h⟩, ?_, by decide, by decide⟩
  intro p s s' h hattached hnodes
  obtain ⟨resolved, _, hscene⟩ := NetworkGraph.renderEffect_scene h hattached hnodes
  refine ⟨_, hscene, rfl, ?_⟩
  intro layout scene' htick
  unfold NetworkGraph.tick at htick
  cases hl : arrayMap (NetworkGraph.tickLine layout) (resolved.map (NetworkGraph.lineOf p)) with
  | error e => simp [hl] at htick
  | ok lines =>
    simp only [hl, Except.ok.injEq] at htick
    subst htick
    cases hlabels : NetworkGraph.labelsOf p with
    | none => simp
    | some ls =>
      simp only [Option.map_some', Option.isSome_some, Option.some.injEq, true_and]
      intro ls' hls'
      rw [← hls', List.length_mapIdx]
      exact (NetworkGraph.labelsOf_eq_some hlabels).1

/-- C16, at a render of three nodes with the sample label callback. -/
theorem labels_exactly_below_fifty_nodes_witness :
    ∃ scene,
      (NetworkGraph.Surface.mk true (some
        { width := 1000, height := 700, marker := true, lines := [],
          circles := (List.replicate 3 [("id", JVal.str "n")]).map
            (NetworkGraph.circleOf
              (NetworkGraph.sampleProps (List.replicate 3 [("id", .str "n")]) [])),
          labels := NetworkGraph.labelsOf
            (NetworkGraph.sampleProps (List.replicate 3 [("id", .str "n")]) []) })
        1 true).scene = some scene ∧
      scene.labels = NetworkGraph.labelsOf
        (NetworkGraph.sampleProps (List.replicate 3 [("id", .str "n")]) []) ∧
      ∀ (layout : Nat → JVal × JVal) (scene' : NetworkGraph.Scene),
        NetworkGraph.tick layout scene = .ok scene' →
        scene'.labels.isSome = scene.labels.isSome ∧
        ∀ ls', scene'.labels = some ls' →
          ls'.length =
            (NetworkGraph.sampleProps (List.replicate 3 [("id", .str "n")]) []).nodes.length :=
  labels_exactly_below_fifty_nodes.2.1
    (NetworkGraph.sampleProps (List.replicate 3 [("id", .str "n")]) [])
    NetworkGraph.Surface.empty _ rfl rfl (by simp [NetworkGraph.sampleProps])

/-! ## C17: thickness of the lines -/

/-- `Math.sqrt` of a square is its root. -/
theorem NetworkGraph.mathSqrt_square (k : Nat) :
    NetworkGraph.mathSqrt (.int ((k * k : Nat) : Int)) = .exact k := by
  unfold NetworkGraph.mathSqrt
  have hneg : ¬ (((k * k : Nat) : Int) < 0) := by omega
  simp only [hneg, if_false, Int.toNat_ofNat]
  cases hfind : (List.range (k * k + 1)).find? (fun j => j * j == k * k) with
  | none =>
    exfalso
    rw [List.find?_eq_none] at hfind
    have hmem : k ∈ List.range (k * k + 1) := by
      rw [List.mem_range]
      have : k ≤ k * k := Nat.le_mul_self k
      omega
    have := hfind k hmem
    simp at this
  | some j =>
    have hj := List.find?_some hfind
    simp only [beq_iff_eq] at hj
    have : j = k := Nat.mul_self_inj.1 hj
    rw [this]

/-- C17 (counterexample): a link whose weight is 0 has a weight, and the square root of that
weight is 0, yet the line is drawn with thickness 1: `d.weight || 1` takes the weight 0 for a
missing one. -/
theorem zero_weight_link_has_thickness_one :
    JVal.lookup "weight" [("source", .str "a"), ("target", .str "b"), ("weight", .num 0)] =
      .num 0 ∧
    NetworkGraph.mathSqrt (JVal.num 0).toNumber = .exact 0 ∧
    NetworkGraph.strokeWidth
        [("source", .str "a"), ("target", .str "b"), ("weight", .num 0)] = .exact 1 ∧
    (match NetworkGraph.renderEffect
        (NetworkGraph.sampleProps [[("id", .str "a")], [("id", .str "b")]]
          [[("source", .str "a"), ("target", .str "b"), ("weight", .num 0)]])
        NetworkGraph.Surface.empty with
      | .ok s' => s'.scene.map (fun scene => scene.lines.map (fun l => l.strokeWidth))
      | .error _ => none) = some [.exact 1] :=
  ⟨rfl, by decide, by decide, by decide⟩

/-- C17 (amended): every line of a render that draws has the thickness `strokeWidth` of its
link: the square root of the link's weight whenever the weight is a number other than 0, and
the constant 1 for every link that has no weight and for every link whose weight is 0. -/
theorem thickness_from_nonzero_weight :
    (∀ (link : NetworkGraph.Obj) (w : Int),
      JVal.lookup "weight" link = .num w → w ≠ 0 →
      NetworkGraph.strokeWidth link = NetworkGraph.mathSqrt (.int w)) ∧
    (∀ link : NetworkGraph.Obj, JVal.lookup "weight" link = .undefined →
      NetworkGraph.strokeWidth link = .exact 1) ∧
    (∀ link : NetworkGraph.Obj, JVal.lookup "weight" link = .num 0 →
      NetworkGraph.strokeWidth link = .exact 1) ∧
    (∀ (p : NetworkGraph.Props) (s s' : NetworkGraph.Surface),
      NetworkGraph.renderEffect p s = .ok s' → s.attached = true → p.nodes ≠ [] →
      ∃ scene, s'.scene = some scene ∧
        ∀ line ∈ scene.lines, line.strokeWidth = NetworkGraph.strokeWidth line.datum) := by
  refine ⟨?_, ?_, ?_, ?_⟩
  · intro link w hw hne
    simp [NetworkGraph.strokeWidth, hw, JVal.truthy, hne, JVal.toNumber]
  · intro link hw
    simp only [NetworkGraph.strokeWidth, hw, JVal.truthy, Bool.false_eq_true, if_false,
      JVal.toNumber]
    decide
  · intro link hw
    simp only [NetworkGraph.strokeWidth, hw, JVal.truthy, bne_self_eq_false,
      Bool.false_eq_true, if_false, JVal.toNumber]
    decide
  · intro p s s' h hattached hnodes
    obtain ⟨resolved, _, hscene⟩ := NetworkGraph.renderEffect_scene h hattached hnodes
    refine ⟨_, hscene, ?_⟩
    intro line hline
    simp only [List.mem_map] at hline
    obtain ⟨r, _, rfl⟩ := hline
    rfl

/-- C17 (amended), at the collaboration link of weight 4: its thickness is the root of 4. -/
theorem thickness_from_nonzero_weight_witness :
    NetworkGraph.strokeWidth
        [("source", .str "a"), ("target", .str "b"), ("weight", .num 4)] =
      NetworkGraph.mathSqrt (.int 4) ∧
    NetworkGraph.mathSqrt (.int 4) = .exact 2 :=
  ⟨thickness_from_nonzero_weight.1
      [("source", .str "a"), ("target", .str "b"), ("weight", .num 4)] 4 rfl (by decide),
    by decide⟩

end PaperViz
